import Mathlib

/-!
# ParcelIQ proxy (`src/proxy.js`)

A shallow embedding of the Express handlers of `proxy.js`.

* A JavaScript value that can come out of `JSON.parse` or out of the query
  parser is a `JsValue`; `undefined` is `none : Option JsValue`.
* The outside world is a function `fetch : Request → FetchOutcome`: for each
  outbound request it says whether the call rejects, and otherwise the status of
  the response and what `await r.json()` gives on it.
* A handler returns the response it sends and the list of outbound requests it
  made, in order.
-/

set_option autoImplicit false

namespace ParcelIQ

/-! ## JavaScript values -/

/-- A JavaScript number as far as this program observes it: whether it is `0`
(or `-0`), which decides its truthiness, and the text `String(n)` gives, which
is what a template literal interpolates. `JSON.parse` never yields `NaN`. -/
structure JsNumber where
  isZero : Bool
  text : String
deriving DecidableEq, Repr

/-- A JavaScript value of the shapes `JSON.parse` and the query parser produce.
An object is its list of own properties in insertion order (keys unique). -/
inductive JsValue where
  | null
  | bool (b : Bool)
  | num (n : JsNumber)
  | str (s : String)
  | arr (items : List JsValue)
  | obj (fields : List (String × JsValue))
deriving Repr

/-- JavaScript truthiness (`ToBoolean`) of a defined value. -/
def JsValue.truthy : JsValue → Bool
  | .null => false
  | .bool b => b
  | .num n => !n.isZero
  | .str s => !(s.data.isEmpty)
  | .arr _ => true
  | .obj _ => true

/-- Truthiness of a possibly `undefined` value. -/
def truthy : Option JsValue → Bool
  | none => false
  | some v => v.truthy

/-- The JavaScript `a || b`. -/
def jsOr (a b : Option JsValue) : Option JsValue :=
  if truthy a then a else b

/-- Own-property lookup in an object's property list. -/
def lookupKey {α : Type} (k : String) : List (String × α) → Option α
  | [] => none
  | (k', v) :: rest => if k' = k then some v else lookupKey k rest

/-- Property assignment `o[k] = v`: an existing key keeps its place, a new key
goes last. -/
def setKey {α : Type} (k : String) (v : α) : List (String × α) → List (String × α)
  | [] => [(k, v)]
  | (k', v') :: rest => if k' = k then (k', v) :: rest else (k', v') :: setKey k v rest

/-- The optional-chaining access `v?.name` for a name that no built-in prototype
defines (`parcels`, `id`, `$ref`, `assessments`, ...): `undefined` on
`undefined` and `null`, the own property on an object, `undefined` on every
other value. -/
def optField (v : Option JsValue) (name : String) : Option JsValue :=
  match v with
  | some (.obj fields) => lookupKey name fields
  | _ => none

/-- The optional-chaining access `v?.[0]`: the first element of an array, the
own property `"0"` of an object, the first character of a non-empty string,
`undefined` otherwise. -/
def optIndex0 (v : Option JsValue) : Option JsValue :=
  match v with
  | some (.arr (x :: _)) => some x
  | some (.obj fields) => lookupKey "0" fields
  | some (.str ⟨c :: _⟩) => some (.str ⟨[c]⟩)
  | _ => none

/-- Splits a character list at every `sep`, as `String.prototype.split` does
with a one-character separator: the result is never empty. -/
def splitChars (sep : Char) : List Char → List (List Char)
  | [] => [[]]
  | c :: cs =>
    if c = sep then [] :: splitChars sep cs
    else
      match splitChars sep cs with
      | [] => [[c]]
      | seg :: rest => (c :: seg) :: rest

/-- The JavaScript `s.split(sep)` for a one-character `sep`. -/
def jsSplit (s : String) (sep : Char) : List String :=
  (splitChars sep s.data).map String.mk

mutual
/-- The JavaScript `String(v)`, which is what a template literal interpolates,
for a value on which the conversion returns: see `JsValue.interpolable`. An
object with an own property `toString` has no string form (the conversion throws
a `TypeError`); the text given for it here is not used by a theorem that
depends on it. -/
def JsValue.toStr : JsValue → String
  | .null => "null"
  | .bool true => "true"
  | .bool false => "false"
  | .num n => n.text
  | .str s => s
  | .arr items => joinItems items
  | .obj _ => "[object Object]"
/-- The text of `Array.prototype.join(",")`: `null` elements give the empty string. -/
def joinItems : List JsValue → String
  | [] => ""
  | [x] => itemStr x
  | x :: y :: rest => itemStr x ++ "," ++ joinItems (y :: rest)
/-- One element of a joined array. -/
def itemStr : JsValue → String
  | .null => ""
  | .bool true => "true"
  | .bool false => "false"
  | .num n => n.text
  | .str s => s
  | .arr items => joinItems items
  | .obj _ => "[object Object]"
end

/-- Interpolation of a possibly `undefined` value in a template literal. -/
def interp : Option JsValue → String
  | none => "undefined"
  | some v => v.toStr

mutual
/-- Whether `String(v)` returns. A plain object is converted by the inherited
`Object.prototype.toString`, unless it has an own property `toString`: a value
out of `JSON.parse` is never callable, so the conversion then throws a
`TypeError`. An array converts its elements, `null` apart. -/
def JsValue.interpolable : JsValue → Bool
  | .null => true
  | .bool _ => true
  | .num _ => true
  | .str _ => true
  | .arr items => allInterpolable items
  | .obj fields => (lookupKey "toString" fields).isNone
/-- Whether every element of an array has a string form. -/
def allInterpolable : List JsValue → Bool
  | [] => true
  | x :: rest => x.interpolable && allInterpolable rest
end

/-- Whether a template literal can interpolate a possibly `undefined` value. -/
def interpolable : Option JsValue → Bool
  | none => true
  | some v => v.interpolable

/-! ## `encodeURIComponent` -/

/-- The characters `encodeURIComponent` leaves alone: ASCII letters and digits
and `- _ . ! ~ * ' ( )`. -/
def isUnreserved (c : Char) : Bool :=
  c.isAlphanum || [ '-', '_', '.', '!', '~', '*', Char.ofNat 39, '(', ')' ].contains c

/-- The UTF-8 bytes of a code point. -/
def utf8Bytes (n : Nat) : List Nat :=
  if n < 128 then [n]
  else if n < 2048 then [192 + n / 64, 128 + n % 64]
  else if n < 65536 then [224 + n / 4096, 128 + n / 64 % 64, 128 + n % 64]
  else [240 + n / 262144, 128 + n / 4096 % 64, 128 + n / 64 % 64, 128 + n % 64]

/-- An upper-case hexadecimal digit. -/
def hexDigit (n : Nat) : Char :=
  if n < 10 then Char.ofNat (48 + n) else Char.ofNat (55 + n)

/-- The escape `%XX` of one byte. -/
def pctByte (b : Nat) : List Char :=
  [ '%', hexDigit (b / 16), hexDigit (b % 16) ]

/-- The escape of one character. -/
def encodeChar (c : Char) : List Char :=
  if isUnreserved c then [c] else (utf8Bytes c.toNat).flatMap pctByte

/-- The JavaScript `encodeURIComponent`. A Lean string holds no lone surrogate,
so the `URIError` case does not arise. -/
def encodeURIComponent (s : String) : String :=
  ⟨s.data.flatMap encodeChar⟩

/-! ## The outside world -/

/-- An outbound call `fetch(url, { method, headers, body })`. A header whose
value is `none` was given `undefined`; `body` is the value handed to
`JSON.stringify`. -/
structure Request where
  method : String
  url : String
  headers : List (String × Option String)
  body : Option JsValue

/-- An upstream response: its status, what `await r.json()` gives (the parsed
value, or the message of the exception it throws), and for a streamed body the
decoded text of the chunks `reader.read()` delivers, followed by the end of the
stream (`readError = none`) or by a read that throws. -/
structure UpstreamResponse where
  status : Nat
  json : Except String JsValue
  chunks : List String
  readError : Option String

/-- The `ok` flag of a response: a status in the range 200-299. -/
def UpstreamResponse.ok (r : UpstreamResponse) : Bool :=
  decide (200 ≤ r.status) && decide (r.status ≤ 299)

/-- What `await fetch(...)` does: it throws an error with a message (the call
never completed), or it gives a response. -/
inductive FetchOutcome where
  | rejected (message : String)
  | responded (r : UpstreamResponse)

/-- What the handler did with `res`. -/
inductive Response where
  /-- The call `res.status(status).json(body)`; `res.json(body)` is status 200. -/
  | json (status : Nat) (body : JsValue)
  /-- A `text/event-stream` response under status 200 with the chunks written
  so far; `ended` says whether `res.end()` was reached. -/
  | eventStream (chunks : List String) (ended : Bool)
  /-- The handler threw outside its `try`: it sent nothing itself. -/
  | unhandled (message : String)

/-- The status of a response the handler sent. -/
def Response.status? : Response → Option Nat
  | .json status _ => some status
  | .eventStream _ _ => some 200
  | .unhandled _ => none

/-- A handler's observable behaviour: the response and the outbound calls, in
order. -/
structure HandlerResult where
  response : Response
  calls : List Request

/-- The Express request as the handlers read it. -/
structure Req where
  /-- The parsed query string `req.query`. -/
  query : List (String × JsValue)
  /-- The route parameters `req.params`. -/
  params : List (String × String)
  /-- The parsed JSON body `req.body`. -/
  body : JsValue

/-- The body `{ error: message }`. -/
def errorBody (message : String) : JsValue :=
  .obj [("error", .str message)]

/-! ## Configuration -/

def LIGHTBOX_BASE : String := "https://api.lightboxre.com/v1"
def ANTHROPIC_BASE : String := "https://api.anthropic.com/v1"
def RENTCAST_BASE : String := "https://api.rentcast.io/v1"
def REAPI_BASE : String := "https://api.realestateapi.com/v2"

/-- The hard-coded evaluation key of the source; its text is left out here,
only the header it is sent in is modelled. -/
def LIGHTBOX_KEY : String := "LIGHTBOX-EVALUATION-KEY"

/-- The credentials read from the environment at start-up; `none` is an unset
variable. -/
structure Config where
  ANTHROPIC_KEY : Option String
  RENTCAST_KEY : Option String
  REAPI_KEY : Option String
  REAPI_SECRET : Option String

/-- Truthiness of an environment variable: set and not empty. -/
def envTruthy : Option String → Bool
  | none => false
  | some s => !(s.data.isEmpty)

/-- The headers every LightBox call carries. -/
def lightboxHeaders : List (String × Option String) :=
  [("x-api-key", some LIGHTBOX_KEY), ("Accept", some "application/json")]

/-- The call `fetch(url, { headers: { 'x-api-key': LIGHTBOX_KEY, 'Accept': 'application/json' } })`. -/
def lightboxGet (url : String) : Request :=
  { method := "GET", url := url, headers := lightboxHeaders, body := none }

/-! ## Combined enrichment: `app.get('/api/enrich')` (lines 322-390) -/

/-- The object `result` of the enrichment handler. It starts as
`{ parcel: null, zoning: null, assessment: null, errors: {} }`; the two
identifier keys exist only once they were assigned (`none` is a missing key). -/
structure EnrichResult where
  parcel : JsValue
  zoning : JsValue
  assessment : JsValue
  errors : List (String × JsValue)
  lightboxParcelId : Option JsValue
  lightboxAssessmentId : Option JsValue

/-- The literal of line 328. -/
def EnrichResult.initial : EnrichResult :=
  { parcel := .null, zoning := .null, assessment := .null, errors := [],
    lightboxParcelId := none, lightboxAssessmentId := none }

/-- The assignment `result.errors[stage] = message`. -/
def EnrichResult.setError (result : EnrichResult) (stage message : String) : EnrichResult :=
  { result with errors := setKey stage (.str message) result.errors }

/-- A key of an object that is there only when it was assigned. -/
def optionalKey (k : String) : Option JsValue → List (String × JsValue)
  | none => []
  | some v => [(k, v)]

/-- The object `res.json(result)` serialises. -/
def EnrichResult.toJson (result : EnrichResult) : JsValue :=
  .obj ([("parcel", result.parcel), ("zoning", result.zoning),
         ("assessment", result.assessment), ("errors", .obj result.errors)]
        ++ optionalKey "lightboxParcelId" result.lightboxParcelId
        ++ optionalKey "lightboxAssessmentId" result.lightboxAssessmentId)

/-- The message of the `TypeError` thrown when `.split` is called on a `$ref`
that is not a string; its exact text is the engine's. -/
def splitTypeError : String :=
  "result.parcel?.parcels?.[0]?.$ref?.split is not a function"

/-- The expression `ref?.split('/').pop()`: `undefined` on `undefined` and
`null`, the last segment of a string, a thrown `TypeError` on any other value
(it has no `split`). -/
def refLastSegment : Option JsValue → Except String (Option JsValue)
  | none => .ok none
  | some .null => .ok none
  | some (.str s) => .ok ((jsSplit s '/').getLast?.map JsValue.str)
  | some _ => .error splitTypeError

/-- Line 346:
`result.parcel?.parcels?.[0]?.id || result.parcel?.parcels?.[0]?.['$ref']?.split('/').pop()`. -/
def extractLbId (parcel : JsValue) : Except String (Option JsValue) :=
  let first := optIndex0 (optField (some parcel) "parcels")
  let id := optField first "id"
  if truthy id then .ok id else refLastSegment (optField first "$ref")

/-- Line 377: `result.assessment?.assessments?.[0]?.id || null`. -/
def extractAssessmentId (assessment : JsValue) : Option JsValue :=
  jsOr (optField (optIndex0 (optField (some assessment) "assessments")) "id") (some .null)

/-- The URL of stage A (lines 332-333). -/
def enrichParcelUrl (lat lon : Option JsValue) : String :=
  let wkt := "POINT(" ++ interp lon ++ " " ++ interp lat ++ ")"
  LIGHTBOX_BASE ++ "/parcels/us/geometry?wkt=" ++ encodeURIComponent wkt
    ++ "&bufferDistance=50&bufferUnit=ft&limit=1"

/-- The URL of stage B (line 351). -/
def enrichZoningUrl (lbId : Option JsValue) : String :=
  LIGHTBOX_BASE ++ "/zoning/_on/parcel/us/" ++ interp lbId

/-- The URL of stage C (line 354). -/
def enrichAssessmentUrl (lbId : Option JsValue) : String :=
  LIGHTBOX_BASE ++ "/assessments/_on/parcel/us/" ++ interp lbId

/-- The state of the `try` block of the enrichment handler when it is left:
`result`, the outbound calls made, and the message of the exception that left
it, if one did. -/
structure EnrichRun where
  result : EnrichResult
  calls : List Request
  thrown : Option String

/-- Lines 338-343: stage A stores the payload of an `ok` response (`json()` may
throw) and records `HTTP <status>` otherwise. -/
def enrichStoreParcel (result : EnrichResult) (parcelRes : UpstreamResponse) :
    Except String EnrichResult :=
  if parcelRes.ok then
    match parcelRes.json with
    | .ok payload => .ok { result with parcel := payload }
    | .error message => .error message
  else
    .ok (result.setError "parcel" ("HTTP " ++ toString parcelRes.status))

/-- Lines 359-365: the settled zoning call. -/
def enrichStoreZoning (result : EnrichResult) (zoningRes : FetchOutcome) :
    Except String EnrichResult :=
  match zoningRes with
  | .responded r =>
    if r.ok then
      match r.json with
      | .ok payload => .ok { result with zoning := payload }
      | .error message => .error message
    else .ok (result.setError "zoning" ("HTTP " ++ toString r.status))
  | .rejected message => .ok (result.setError "zoning" message)

/-- Lines 367-373: the settled assessment call. -/
def enrichStoreAssessment (result : EnrichResult) (assessmentRes : FetchOutcome) :
    Except String EnrichResult :=
  match assessmentRes with
  | .responded r =>
    if r.ok then
      match r.json with
      | .ok payload => .ok { result with assessment := payload }
      | .error message => .error message
    else .ok (result.setError "assessment" ("HTTP " ++ toString r.status))
  | .rejected message => .ok (result.setError "assessment" message)

/-- The `try` block of the enrichment handler (lines 330-383). -/
def enrichTry (fetch : Request → FetchOutcome) (lat lon : Option JsValue) : EnrichRun :=
  let result := EnrichResult.initial
  let parcelReq := lightboxGet (enrichParcelUrl lat lon)
  match fetch parcelReq with
  | .rejected message => { result := result, calls := [parcelReq], thrown := some message }
  | .responded parcelRes =>
    match enrichStoreParcel result parcelRes with
    | .error message => { result := result, calls := [parcelReq], thrown := some message }
    | .ok result =>
      match extractLbId result.parcel with
      | .error message => { result := result, calls := [parcelReq], thrown := some message }
      | .ok lbId =>
        if truthy lbId then
          let zoningReq := lightboxGet (enrichZoningUrl lbId)
          let assessmentReq := lightboxGet (enrichAssessmentUrl lbId)
          let calls := [parcelReq, zoningReq, assessmentReq]
          match enrichStoreZoning result (fetch zoningReq) with
          | .error message => { result := result, calls := calls, thrown := some message }
          | .ok result =>
            match enrichStoreAssessment result (fetch assessmentReq) with
            | .error message => { result := result, calls := calls, thrown := some message }
            | .ok result =>
              { result := { result with
                              lightboxParcelId := lbId,
                              lightboxAssessmentId := extractAssessmentId result.assessment },
                calls := calls, thrown := none }
        else
          { result := (result.setError "zoning" "No LightBox parcel ID — cannot fetch zoning").setError
              "assessment" "No LightBox parcel ID — cannot fetch assessment",
            calls := [parcelReq], thrown := none }

/-- The handler `app.get('/api/enrich')` (lines 322-390). -/
def enrich (fetch : Request → FetchOutcome) (req : Req) : HandlerResult :=
  let lat := lookupKey "lat" req.query
  let lon := lookupKey "lon" req.query
  if !truthy lat || !truthy lon then
    { response := .json 400 (errorBody "lat and lon required"), calls := [] }
  else
    let run := enrichTry fetch lat lon
    let result :=
      match run.thrown with
      | none => run.result
      | some message => run.result.setError "general" message
    { response := .json 200 result.toJson, calls := run.calls }

/-! ## Single-endpoint pass-through handlers -/

/-- The tail every pass-through handler shares, inside its `try`:
`const r = await fetch(...); const data = await r.json();`
`if (!r.ok) return res.status(r.status).json(data); res.json(data);`
with `catch (err) { res.status(500).json({ error: err.message }) }`. -/
def relay (fetch : Request → FetchOutcome) (q : Request) : HandlerResult :=
  match fetch q with
  | .rejected message => { response := .json 500 (errorBody message), calls := [q] }
  | .responded r =>
    match r.json with
    | .error message => { response := .json 500 (errorBody message), calls := [q] }
    | .ok data =>
      if !r.ok then { response := .json r.status data, calls := [q] }
      else { response := .json 200 data, calls := [q] }

/-- Interpolation of a route parameter in a template literal. -/
def interpParam : Option String → String
  | none => "undefined"
  | some s => s

/-- The handler `app.get('/api/lightbox/parcels/geometry')` (lines 69-92). -/
def parcelsGeometry (fetch : Request → FetchOutcome) (req : Req) : HandlerResult :=
  let lat := lookupKey "lat" req.query
  let lon := lookupKey "lon" req.query
  if !truthy lat || !truthy lon then
    { response := .json 400 (errorBody "lat and lon required"), calls := [] }
  else
    let wkt := "POINT(" ++ interp lon ++ " " ++ interp lat ++ ")"
    let url := LIGHTBOX_BASE ++ "/parcels/us/geometry?wkt=" ++ encodeURIComponent wkt
      ++ "&bufferDistance=50&bufferUnit=ft&limit=1"
    relay fetch (lightboxGet url)

/-- The three handlers that take `?text=ADDRESS` differ in one path segment:
`app.get('/api/lightbox/parcels/address')` (lines 98-117),
`app.get('/api/lightbox/zoning/address')` (lines 196-215) and
`app.get('/api/lightbox/assessment/address')` (lines 246-265). -/
def byAddress (path : String) (fetch : Request → FetchOutcome) (req : Req) : HandlerResult :=
  let text := lookupKey "text" req.query
  if !truthy text then
    { response := .json 400 (errorBody "text required"), calls := [] }
  else
    let url := LIGHTBOX_BASE ++ path ++ "?text=" ++ encodeURIComponent (interp text)
    relay fetch (lightboxGet url)

/-- The handler `app.get('/api/lightbox/parcels/address')`. -/
def parcelsAddress : (Request → FetchOutcome) → Req → HandlerResult :=
  byAddress "/parcels/address"

/-- The handler `app.get('/api/lightbox/zoning/address')`. -/
def zoningAddress : (Request → FetchOutcome) → Req → HandlerResult :=
  byAddress "/zoning/address"

/-- The handler `app.get('/api/lightbox/assessment/address')`. -/
def assessmentAddress : (Request → FetchOutcome) → Req → HandlerResult :=
  byAddress "/assessments/address"

/-- The handlers that take only the route parameter `:id` differ in the path
the identifier is appended to: `app.get('/api/lightbox/parcels/:id')` (lines
123-140), `app.get('/api/lightbox/zoning/parcel/:id')` (lines 173-190),
`app.get('/api/lightbox/assessment/parcel/:id')` (lines 223-240),
`app.get('/api/lightbox/history/:id')` (lines 397-410) and
`app.get('/api/lightbox/portfolio/:id')` (lines 417-430). -/
def byId (path : String) (fetch : Request → FetchOutcome) (req : Req) : HandlerResult :=
  let id := lookupKey "id" req.params
  relay fetch (lightboxGet (LIGHTBOX_BASE ++ path ++ interpParam id))

/-- The handler `app.get('/api/lightbox/parcels/:id')`. -/
def parcelById : (Request → FetchOutcome) → Req → HandlerResult :=
  byId "/parcels/us/"

/-- The handler `app.get('/api/lightbox/zoning/parcel/:id')`. -/
def zoningByParcel : (Request → FetchOutcome) → Req → HandlerResult :=
  byId "/zoning/_on/parcel/us/"

/-- The handler `app.get('/api/lightbox/assessment/parcel/:id')`. -/
def assessmentByParcel : (Request → FetchOutcome) → Req → HandlerResult :=
  byId "/assessments/_on/parcel/us/"

/-- The handler `app.get('/api/lightbox/history/:id')`. -/
def history : (Request → FetchOutcome) → Req → HandlerResult :=
  byId "/assessments/historicalassessedvalue/us/"

/-- The handler `app.get('/api/lightbox/portfolio/:id')`. -/
def portfolio : (Request → FetchOutcome) → Req → HandlerResult :=
  byId "/assessments/ownerportfolio/us/"

/-- The test `commonOwnership === 'true'` on a query parameter. -/
def isTrueString : Option JsValue → Bool
  | some (.str s) => decide (s = "true")
  | _ => false

/-- The handlers `app.get('/api/lightbox/parcels/:id/adjacent')` (lines 146-165)
and `app.get('/api/lightbox/adjacent/:id')` (lines 437-451): both build the same
URL. -/
def adjacent (fetch : Request → FetchOutcome) (req : Req) : HandlerResult :=
  let id := lookupKey "id" req.params
  let co := if isTrueString (lookupKey "commonOwnership" req.query) then "?commonOwnership=true"
    else ""
  relay fetch (lightboxGet (LIGHTBOX_BASE ++ "/parcels/_adjacent/us/" ++ interpParam id ++ co))

/-- The headers of a Rentcast call. -/
def rentcastHeaders (cfg : Config) : List (String × Option String) :=
  [("X-Api-Key", cfg.RENTCAST_KEY), ("Accept", some "application/json")]

/-- A destructuring default `name = fallback`: it applies to `undefined` only. -/
def withDefault (v : Option JsValue) (fallback : String) : Option JsValue :=
  match v with
  | none => some (.str fallback)
  | some x => some x

/-- The statement `if (v) url += '&name=' + f(v)`. -/
def appendIf (url : String) (v : Option JsValue) (suffix : String) : String :=
  if truthy v then url ++ suffix else url

/-- The handler `app.get('/api/listings')` (lines 504-523). -/
def listings (cfg : Config) (fetch : Request → FetchOutcome) (req : Req) : HandlerResult :=
  if !envTruthy cfg.RENTCAST_KEY then
    { response := .json 503 (errorBody "RENTCAST_KEY not configured"), calls := [] }
  else
    let lat := lookupKey "lat" req.query
    let lon := lookupKey "lon" req.query
    let radius := withDefault (lookupKey "radius" req.query) "1"
    let limit := withDefault (lookupKey "limit" req.query) "50"
    let propertyType := lookupKey "propertyType" req.query
    if !truthy lat || !truthy lon then
      { response := .json 400 (errorBody "lat and lon required"), calls := [] }
    else
      let url := RENTCAST_BASE ++ "/listings/sale?latitude=" ++ interp lat ++ "&longitude="
        ++ interp lon ++ "&radius=" ++ interp radius ++ "&limit=" ++ interp limit
        ++ "&status=Active"
      let url := appendIf url propertyType
        ("&propertyType=" ++ encodeURIComponent (interp propertyType))
      relay fetch { method := "GET", url := url, headers := rentcastHeaders cfg, body := none }

/-- The handler `app.get('/api/comps')` (lines 530-552). -/
def comps (cfg : Config) (fetch : Request → FetchOutcome) (req : Req) : HandlerResult :=
  if !envTruthy cfg.RENTCAST_KEY then
    { response := .json 503 (errorBody "RENTCAST_KEY not configured"), calls := [] }
  else
    let address := lookupKey "address" req.query
    let bedrooms := lookupKey "bedrooms" req.query
    let bathrooms := lookupKey "bathrooms" req.query
    let squareFootage := lookupKey "squareFootage" req.query
    let propertyType := lookupKey "propertyType" req.query
    if !truthy address then
      { response := .json 400 (errorBody "address required"), calls := [] }
    else
      let url := RENTCAST_BASE ++ "/avm/value?address=" ++ encodeURIComponent (interp address)
        ++ "&compCount=5"
      let url := appendIf url bedrooms ("&bedrooms=" ++ interp bedrooms)
      let url := appendIf url bathrooms ("&bathrooms=" ++ interp bathrooms)
      let url := appendIf url squareFootage ("&squareFootage=" ++ interp squareFootage)
      let url := appendIf url propertyType
        ("&propertyType=" ++ encodeURIComponent (interp propertyType))
      relay fetch { method := "GET", url := url, headers := rentcastHeaders cfg, body := none }

/-- The message of the `TypeError` thrown by destructuring a `null` body (line
461); its exact text is the engine's. -/
def destructureTypeError : String :=
  "Cannot destructure property address of req.body as it is null."

/-- The message of the `TypeError` thrown when `.trim` is called on an
`ownerName` that is truthy and not a string (line 465). -/
def trimTypeError : String :=
  "(ownerName || empty).trim is not a function"

/-- The message of the `TypeError` thrown when `.split` is called on a `zip` that
is truthy and not a string (line 474). -/
def zipTypeError : String :=
  "zip.split is not a function"

/-- Lines 471-474: the payload `{ address }` with `city`, `state` and `zip` added
when they are truthy; `zip` is `zip.split('-')[0]`, which throws when `zip` is
not a string. -/
def skiptracePayload (address city state zip : Option JsValue) : Except String JsValue :=
  let payload := optionalKey "address" address
  let payload := if truthy city then payload ++ optionalKey "city" city else payload
  let payload := if truthy state then payload ++ optionalKey "state" state else payload
  if truthy zip then
    match zip with
    | some (.str z) =>
      .ok (.obj (payload ++ optionalKey "zip" ((jsSplit z '-').head?.map JsValue.str)))
    | _ => .error zipTypeError
  else .ok (.obj payload)

/-- The handler `app.post('/api/skiptrace')` (lines 459-497). The destructuring
of line 461 and the name parsing of line 465 stand outside the `try`. -/
def skiptrace (cfg : Config) (fetch : Request → FetchOutcome) (req : Req) : HandlerResult :=
  if !envTruthy cfg.REAPI_KEY then
    { response := .json 503 (errorBody "REAPI_KEY not configured — add to start.ps1"),
      calls := [] }
  else
    match req.body with
    | .null => { response := .unhandled destructureTypeError, calls := [] }
    | body =>
      let address := optField (some body) "address"
      let city := optField (some body) "city"
      let state := optField (some body) "state"
      let zip := optField (some body) "zip"
      let ownerName := optField (some body) "ownerName"
      if !truthy address then
        { response := .json 400 (errorBody "address required"), calls := [] }
      else
        match jsOr ownerName (some (.str "")) with
        | some (.str _) =>
          match skiptracePayload address city state zip with
          | .error message => { response := .json 500 (errorBody message), calls := [] }
          | .ok payload =>
            relay fetch
              { method := "POST", url := REAPI_BASE ++ "/SkipTrace",
                headers := [("x-api-key", cfg.REAPI_KEY),
                            ("x-user-id", some (if envTruthy cfg.REAPI_SECRET then
                                                  interpParam cfg.REAPI_SECRET else "")),
                            ("Content-Type", some "application/json"),
                            ("Accept", some "application/json")],
                body := some payload }
        | _ => { response := .unhandled trimTypeError, calls := [] }

/-- The own enumerable properties an object spread `{ ...v }` copies: the
properties of an object, the indexed elements of an array, nothing for `null`,
a boolean or a number. (The JSON body parser delivers objects and arrays.) -/
def spreadProps : JsValue → List (String × JsValue)
  | .obj fields => fields
  | .arr items => (List.range items.length).zip items |>.map (fun p => (toString p.1, p.2))
  | _ => []

/-- Lines 275-286: the call `fetch(ANTHROPIC_BASE + '/messages', ...)` with the
payload `{ ...req.body, stream: true }`. -/
def claudeRequest (cfg : Config) (req : Req) : Request :=
  { method := "POST", url := ANTHROPIC_BASE ++ "/messages",
    headers := [("Content-Type", some "application/json"),
                ("x-api-key", cfg.ANTHROPIC_KEY),
                ("anthropic-version", some "2023-06-01")],
    body := some (.obj (setKey "stream" (.bool true) (spreadProps req.body))) }

/-- The handler `app.post('/api/claude')` (lines 273-313). On a success status
the upstream chunks are written to the client as they arrive; a read that throws
before anything was written is answered by the `catch` with 500, and one that
throws later leaves the stream open, the headers being sent already. -/
def claude (cfg : Config) (fetch : Request → FetchOutcome) (req : Req) : HandlerResult :=
  let q := claudeRequest cfg req
  match fetch q with
  | .rejected message => { response := .json 500 (errorBody message), calls := [q] }
  | .responded r =>
    if !r.ok then
      match r.json with
      | .ok err => { response := .json r.status err, calls := [q] }
      | .error message => { response := .json 500 (errorBody message), calls := [q] }
    else
      match r.readError with
      | none => { response := .eventStream r.chunks true, calls := [q] }
      | some message =>
        if r.chunks.isEmpty then { response := .json 500 (errorBody message), calls := [q] }
        else { response := .eventStream r.chunks false, calls := [q] }

/-- The values that have a `slice` method: strings and arrays. -/
def hasSlice : Option JsValue → Bool
  | some (.str _) => true
  | some (.arr _) => true
  | _ => false

/-- The message of the `TypeError` thrown by line 566 when `name.slice` is not a
function; its exact text is the engine's. -/
def sliceTypeError (name : String) : String :=
  name ++ ".slice is not a function"

/-- The handler `app.get('/api/parcels-bbox')` (lines 556-575). The test of line
562 is arithmetic on IEEE doubles,
`parseFloat(north) - parseFloat(south) > 0.05 || parseFloat(east) - parseFloat(west) > 0.05`;
it is the parameter `tooLarge`, applied to `west`, `south`, `east`, `north`. The
log line 566 calls `.slice` on the four bounds, inside the `try` and before the
call. -/
def parcelsBbox (tooLarge : Option JsValue → Option JsValue → Option JsValue → Option JsValue → Bool)
    (fetch : Request → FetchOutcome) (req : Req) : HandlerResult :=
  let west := lookupKey "west" req.query
  let south := lookupKey "south" req.query
  let east := lookupKey "east" req.query
  let north := lookupKey "north" req.query
  let token := lookupKey "token" req.query
  if !truthy west || !truthy south || !truthy east || !truthy north || !truthy token then
    { response := .json 400 (errorBody "west, south, east, north, token required"), calls := [] }
  else if tooLarge west south east north then
    { response := .json 400 (errorBody "Bbox too large — zoom in further"), calls := [] }
  else
    let url := "https://app.regrid.com/api/v1/search.json?bbox=" ++ interp west ++ ","
      ++ interp south ++ "," ++ interp east ++ "," ++ interp north ++ "&limit=500&token="
      ++ encodeURIComponent (interp token)
    if !hasSlice west then
      { response := .json 500 (errorBody (sliceTypeError "west")), calls := [] }
    else if !hasSlice south then
      { response := .json 500 (errorBody (sliceTypeError "south")), calls := [] }
    else if !hasSlice east then
      { response := .json 500 (errorBody (sliceTypeError "east")), calls := [] }
    else if !hasSlice north then
      { response := .json 500 (errorBody (sliceTypeError "north")), calls := [] }
    else
      relay fetch
        { method := "GET", url := url, headers := [("Accept", some "application/json")],
          body := none }

/-- What the single-endpoint handlers take from outside: the credentials, the
upstream, and the floating-point test of the bounding-box handler. -/
structure World where
  cfg : Config
  fetch : Request → FetchOutcome
  tooLarge : Option JsValue → Option JsValue → Option JsValue → Option JsValue → Bool

/-- The single-endpoint pass-through operations of the server. -/
inductive Endpoint where
  | parcelsGeometry
  | parcelsAddress
  | parcelById
  | parcelAdjacent
  | zoningByParcel
  | zoningAddress
  | assessmentByParcel
  | assessmentAddress
  | claude
  | history
  | portfolio
  | adjacent
  | skiptrace
  | listings
  | comps
  | parcelsBbox
deriving DecidableEq, Repr

/-- The handler registered for an endpoint. -/
def Endpoint.handler (w : World) : Endpoint → Req → HandlerResult
  | .parcelsGeometry => ParcelIQ.parcelsGeometry w.fetch
  | .parcelsAddress => ParcelIQ.parcelsAddress w.fetch
  | .parcelById => ParcelIQ.parcelById w.fetch
  | .parcelAdjacent => ParcelIQ.adjacent w.fetch
  | .zoningByParcel => ParcelIQ.zoningByParcel w.fetch
  | .zoningAddress => ParcelIQ.zoningAddress w.fetch
  | .assessmentByParcel => ParcelIQ.assessmentByParcel w.fetch
  | .assessmentAddress => ParcelIQ.assessmentAddress w.fetch
  | .claude => ParcelIQ.claude w.cfg w.fetch
  | .history => ParcelIQ.history w.fetch
  | .portfolio => ParcelIQ.portfolio w.fetch
  | .adjacent => ParcelIQ.adjacent w.fetch
  | .skiptrace => ParcelIQ.skiptrace w.cfg w.fetch
  | .listings => ParcelIQ.listings w.cfg w.fetch
  | .comps => ParcelIQ.comps w.cfg w.fetch
  | .parcelsBbox => ParcelIQ.parcelsBbox w.tooLarge w.fetch

/-! ## Vocabulary of the claims -/

/-- The field `name` of the JSON body of a response (`none`: no such key, or
no JSON body). -/
def Response.field (r : Response) (name : String) : Option JsValue :=
  match r with
  | .json _ body => optField (some body) name
  | _ => none

/-- The entry `errors[stage]` of the JSON body of a response. -/
def Response.error (r : Response) (stage : String) : Option JsValue :=
  optField (r.field "errors") stage

/-- The stage-A call of the enrichment handler for a request. -/
def enrichParcelReq (req : Req) : Request :=
  lightboxGet (enrichParcelUrl (lookupKey "lat" req.query) (lookupKey "lon" req.query))

/-- The first parcel `parcels[0]` of a stage-A payload, as line 346 reads it. -/
def firstParcel (payload : JsValue) : Option JsValue :=
  optIndex0 (optField (some payload) "parcels")

/-- Reading the body of a settled stage-B or stage-C call throws: the call
completed with a success status and `json()` fails on its body. -/
def bodyThrows : FetchOutcome → Bool
  | .responded r => r.ok && (match r.json with | .ok _ => false | .error _ => true)
  | .rejected _ => false

/-- The message of the exception that reading the body of a settled stage-B or
stage-C call throws, when it throws: the call completed with a success status
and `json()` fails on its body with that message. -/
def bodyError : FetchOutcome → Option String
  | .responded r => if r.ok then (match r.json with | .ok _ => none | .error m => some m) else none
  | .rejected _ => none

/-- The failure of a settled call as the claims describe it: the exception
message when the call was rejected, `HTTP <status>` when it completed with a
non-success status, none when it completed with a success status. -/
def failureMessage : FetchOutcome → Option String
  | .rejected message => some message
  | .responded r => if r.ok then none else some ("HTTP " ++ toString r.status)

/-- The field `assessments[0].id` of a stage-C payload, as line 377 reads it. -/
def firstAssessmentId (payload : JsValue) : Option JsValue :=
  optField (optIndex0 (optField (some payload) "assessments")) "id"

/-- Stage A succeeded with `payload`: the parcel call completed with a success
status and `json()` gave `payload`. -/
def parcelSucceeded (fetch : Request → FetchOutcome) (req : Req) (payload : JsValue) : Prop :=
  ∃ r, fetch (enrichParcelReq req) = .responded r ∧ r.ok = true ∧ r.json = .ok payload

/-- Stage B succeeded with `payload`: stage A succeeded, a truthy identifier came
out of its payload, and the zoning call for that identifier completed with a
success status and `json()` gave `payload`. -/
def zoningSucceeded (fetch : Request → FetchOutcome) (req : Req) (payload : JsValue) : Prop :=
  ∃ pa lbId rb, parcelSucceeded fetch req pa ∧ extractLbId pa = .ok lbId ∧ truthy lbId = true ∧
    fetch (lightboxGet (enrichZoningUrl lbId)) = .responded rb ∧ rb.ok = true ∧
    rb.json = .ok payload

/-- Stage C succeeded with `payload`, in the same sense as for stage B. -/
def assessmentSucceeded (fetch : Request → FetchOutcome) (req : Req) (payload : JsValue) : Prop :=
  ∃ pa lbId rc, parcelSucceeded fetch req pa ∧ extractLbId pa = .ok lbId ∧ truthy lbId = true ∧
    fetch (lightboxGet (enrichAssessmentUrl lbId)) = .responded rc ∧ rc.ok = true ∧
    rc.json = .ok payload

/-- The object `result` once stage A stored `payload` (line 339). -/
def afterParcel (payload : JsValue) : EnrichResult :=
  { parcel := payload, zoning := .null, assessment := .null, errors := [],
    lightboxParcelId := none, lightboxAssessmentId := none }

/-- A query parameter is missing: absent, or the empty string. -/
def missing (v : Option JsValue) : Prop :=
  v = none ∨ v = some (.str "")

/-! ## Concrete inputs -/

/-- The request `GET /api/enrich?lat=32.77&lon=-96.79`. -/
def dallasReq : Req :=
  { query := [("lat", .str "32.77"), ("lon", .str "-96.79")], params := [], body := .obj [] }

/-- An upstream response with a JSON body. -/
def jsonResponse (status : Nat) (body : JsValue) : UpstreamResponse :=
  { status := status, json := .ok body, chunks := [], readError := none }

/-- An upstream response whose body `json()` cannot parse. -/
def garbledResponse (status : Nat) (message : String) : UpstreamResponse :=
  { status := status, json := .error message, chunks := [], readError := none }

/-- The stage-A payload `{"parcels": [{"$ref": 5}]}`: a first parcel without `id`
whose `$ref` is a number. -/
def numericRefPayload : JsValue :=
  .obj [("parcels", .arr [.obj [("$ref", .num { isZero := false, text := "5" })]])]

/-- The stage-A payload `{"parcels": [{"id": "ABC123"}]}`. -/
def abcPayload : JsValue :=
  .obj [("parcels", .arr [.obj [("id", .str "ABC123")]])]

/-- The stage-A payload
`{"parcels": [{"id": "", "$ref": "https://api.lightboxre.com/v1/parcels/us/0200ABC"}]}`:
the `id` field is present and empty. -/
def emptyIdPayload : JsValue :=
  .obj [("parcels", .arr [.obj [("id", .str ""),
    ("$ref", .str "https://api.lightboxre.com/v1/parcels/us/0200ABC")]])]

/-- An upstream in which the zoning lookup of parcel `ABC123` answers 503 and
every other call answers 200 with `{"parcels": [{"id": "ABC123"}]}`. -/
def zoningDown (q : Request) : FetchOutcome :=
  if q.url = "https://api.lightboxre.com/v1/zoning/_on/parcel/us/ABC123" then
    .responded (jsonResponse 503 (.obj []))
  else .responded (jsonResponse 200 abcPayload)

/-- An upstream in which the zoning lookup of parcel `ABC123` answers 200 with a
body `json()` cannot parse, and every other call answers 200 with
`{"parcels": [{"id": "ABC123"}]}`. -/
def zoningGarbled (q : Request) : FetchOutcome :=
  if q.url = "https://api.lightboxre.com/v1/zoning/_on/parcel/us/ABC123" then
    .responded (garbledResponse 200 "Unexpected end of JSON input")
  else .responded (jsonResponse 200 abcPayload)

/-- The stage-C payload `{"assessments": [{"id": "Z9"}]}`. -/
def z9Payload : JsValue :=
  .obj [("assessments", .arr [.obj [("id", .str "Z9")]])]

/-- An upstream in which the parcel lookup answers 200 with parcel ID `ABC123`,
the assessment lookup of that parcel answers 200 with `assessment`, and the
zoning lookup answers 200 with `{"zonings": []}`. -/
def allUp (assessment : JsValue) (q : Request) : FetchOutcome :=
  if q.url = "https://api.lightboxre.com/v1/assessments/_on/parcel/us/ABC123" then
    .responded (jsonResponse 200 assessment)
  else if q.url = "https://api.lightboxre.com/v1/zoning/_on/parcel/us/ABC123" then
    .responded (jsonResponse 200 (.obj [("zonings", .arr [])]))
  else .responded (jsonResponse 200 abcPayload)

/-- The stage-C payload `{"assessments": [{"id": ""}]}`: the `id` field is
present and empty. -/
def emptyAssessmentIdPayload : JsValue :=
  .obj [("assessments", .arr [.obj [("id", .str "")]])]

/-- A configuration with no credential set. -/
def noKeys : Config :=
  { ANTHROPIC_KEY := none, RENTCAST_KEY := none, REAPI_KEY := none, REAPI_SECRET := none }

/-- A world without credentials in which every upstream call answers 404 with
`{"message": "Not Found"}`. -/
def notFoundWorld : World :=
  { cfg := noKeys,
    fetch := fun _ => .responded (jsonResponse 404 (.obj [("message", .str "Not Found")])),
    tooLarge := fun _ _ _ _ => false }

/-- The request `POST /api/claude` with body `{"model": "m", "messages": []}`. -/
def chatReq : Req :=
  { query := [], params := [], body := .obj [("model", .str "m"), ("messages", .arr [])] }

/-- The body of an upstream authentication failure. -/
def authenticationError : JsValue :=
  .obj [("type", .str "error"),
        ("error", .obj [("type", .str "authentication_error"),
                        ("message", .str "x-api-key header is required")])]

/-! ## The arithmetic of the bounding-box test (lines 560-562)

`parseFloat`, `-` and `> 0.05` work on IEEE-754 doubles. Every finite double is
a fraction with a power of two as denominator, so the three operations are
modelled exactly on such fractions: a result is the fraction nearest to the
exact one among those with 53 significant bits, a tie going to the even one. -/

/-- An IEEE-754 double as lines 560-562 observe it: not-a-number, an infinity,
or the finite value `num / den` with its sign. The denominator is a power of
two; a value has many such fractions, and zero is `num = 0`. -/
inductive Double where
  | nan
  | inf (negative : Bool)
  | fin (negative : Bool) (num den : Nat)
deriving DecidableEq, Repr

/-- The number of binary digits of `n`, with `fuel` steps. -/
def bitLengthAux : Nat → Nat → Nat
  | 0, _ => 0
  | fuel + 1, n => if n = 0 then 0 else bitLengthAux fuel (n / 2) + 1

/-- The number of binary digits of `n`: `2 ^ (bitLength n - 1) ≤ n < 2 ^ bitLength n`
for `n > 0`. -/
def bitLength (n : Nat) : Nat :=
  bitLengthAux n n

/-- The integer `⌊log₂ (n / d)⌋` for positive `n` and `d`. -/
def floorLog2 (n d : Nat) : Int :=
  let g : Int := (bitLength n : Int) - (bitLength d : Int)
  if d * 2 ^ g.toNat ≤ n * 2 ^ (-g).toNat then g else g - 1

/-- The integer nearest to `n / d`, a tie going to the even one. -/
def roundHalfEven (n d : Nat) : Nat :=
  let q := n / d
  let r := n % d
  if 2 * r < d then q
  else if d < 2 * r then q + 1
  else if q % 2 = 0 then q else q + 1

/-- The double nearest to `± n / d` (`d > 0`), ties to even: 53 significant
bits, the smallest unit `2 ^ (-1074)`, and an infinity from `2 ^ 1024` on. -/
def roundToDouble (negative : Bool) (n d : Nat) : Double :=
  if n = 0 then .fin negative 0 1
  else
    let u : Int := max (floorLog2 n d - 52) (-1074)
    let m := roundHalfEven (n * 2 ^ (-u).toNat) (d * 2 ^ u.toNat)
    if 971 < u ∨ (u = 971 ∧ 2 ^ 53 ≤ m) then .inf negative
    else .fin negative (m * 2 ^ u.toNat) (2 ^ (-u).toNat)

/-- The numerator `n` with its sign. -/
def signedNum (negative : Bool) (n : Nat) : Int :=
  if negative then -(n : Int) else (n : Int)

/-- The JavaScript `x - y` on doubles. -/
def Double.sub : Double → Double → Double
  | .nan, _ => .nan
  | _, .nan => .nan
  | .inf a, .inf b => if a = b then .nan else .inf a
  | .inf a, .fin _ _ _ => .inf a
  | .fin _ _ _, .inf b => .inf (!b)
  | .fin s₁ n₁ d₁, .fin s₂ n₂ d₂ =>
    let diff : Int := signedNum s₁ (n₁ * d₂) - signedNum s₂ (n₂ * d₁)
    roundToDouble (decide (diff < 0)) diff.natAbs (d₁ * d₂)

/-- The JavaScript `x > y` on doubles: false when either is `NaN`. -/
def Double.gt : Double → Double → Bool
  | .nan, _ => false
  | _, .nan => false
  | .inf a, .inf b => !a && b
  | .inf a, .fin _ _ _ => !a
  | .fin _ _ _, .inf b => b
  | .fin s₁ n₁ d₁, .fin s₂ n₂ d₂ => decide (signedNum s₂ (n₂ * d₁) < signedNum s₁ (n₁ * d₂))

/-- The JavaScript `x <= y` on doubles: false when either is `NaN`. -/
def Double.le : Double → Double → Bool
  | .nan, _ => false
  | _, .nan => false
  | x, y => !(x.gt y)

/-- The white space `parseFloat` skips at the start of its argument. -/
def isStrWhiteSpace (c : Char) : Bool :=
  [9, 10, 11, 12, 13, 32, 160, 5760, 8192, 8193, 8194, 8195, 8196, 8197, 8198, 8199, 8200,
   8201, 8202, 8232, 8233, 8239, 8287, 12288, 65279].contains c.toNat

/-- The number a string of decimal digits denotes. -/
def digitsValue (ds : List Char) : Nat :=
  ds.foldl (fun acc c => 10 * acc + (c.toNat - 48)) 0

/-- Whether the second list starts with the first. -/
def startsWith : List Char → List Char → Bool
  | [], _ => true
  | _ :: _, [] => false
  | p :: ps, c :: cs => p == c && startsWith ps cs

/-- The number the digits at the start of `cs` denote, when there is a digit. -/
def exponentDigits (cs : List Char) : Option Nat :=
  match cs.takeWhile Char.isDigit with
  | [] => none
  | ds => some (digitsValue ds)

/-- The value of the exponent part `e±ddd` at the start of `cs`; `0` when `cs`
starts with no complete exponent part. -/
def exponentPart : List Char → Int
  | [] => 0
  | c :: rest =>
    if c == 'e' || c == 'E' then
      match rest with
      | '+' :: ds => (match exponentDigits ds with | some v => (v : Int) | none => 0)
      | '-' :: ds => (match exponentDigits ds with | some v => -(v : Int) | none => 0)
      | ds => (match exponentDigits ds with | some v => (v : Int) | none => 0)
    else 0

/-- The longest prefix of `cs` that is an unsigned decimal literal (digits, an
optional fraction, an optional exponent), as the pair `(m, k)` of the value
`m * 10 ^ k`; `none` when no prefix is one. -/
def unsignedDecimal (cs : List Char) : Option (Nat × Int) :=
  let whole := cs.takeWhile Char.isDigit
  match cs.dropWhile Char.isDigit with
  | '.' :: rest =>
    let frac := rest.takeWhile Char.isDigit
    if whole.isEmpty && frac.isEmpty then none
    else some (digitsValue (whole ++ frac),
               exponentPart (rest.dropWhile Char.isDigit) - (frac.length : Int))
  | rest => if whole.isEmpty then none else some (digitsValue whole, exponentPart rest)

/-- The double nearest to `± m * 10 ^ k`. -/
def decimalToDouble (negative : Bool) (m : Nat) (k : Int) : Double :=
  roundToDouble negative (m * 10 ^ k.toNat) (10 ^ (-k).toNat)

/-- What `parseFloat` reads first: it skips leading white space and takes an
optional sign; the result is whether the sign is `-`, and the rest. -/
def signedRest (s : String) : Bool × List Char :=
  match s.data.dropWhile isStrWhiteSpace with
  | '-' :: rest => (true, rest)
  | '+' :: rest => (false, rest)
  | cs => (false, cs)

/-- The JavaScript `parseFloat` on a string: after the white space and the sign,
the longest prefix that is a decimal literal (or `Infinity`) is read, and the
result is `NaN` when there is none. -/
def parseFloat (s : String) : Double :=
  if startsWith "Infinity".data (signedRest s).2 then .inf (signedRest s).1
  else
    match unsignedDecimal (signedRest s).2 with
    | none => .nan
    | some (m, k) => decimalToDouble (signedRest s).1 m k

/-- The numeric literal `0.05` of line 562. -/
def bboxLimit : Double :=
  decimalToDouble false 5 (-2)

/-- Line 560: `latDiff = parseFloat(north) - parseFloat(south)`. -/
def latDiff (south north : Option JsValue) : Double :=
  (parseFloat (interp north)).sub (parseFloat (interp south))

/-- Line 561: `lonDiff = parseFloat(east) - parseFloat(west)`. -/
def lonDiff (west east : Option JsValue) : Double :=
  (parseFloat (interp east)).sub (parseFloat (interp west))

/-- Line 562: `latDiff > 0.05 || lonDiff > 0.05`. -/
def bboxTooLarge (west south east north : Option JsValue) : Bool :=
  (latDiff south north).gt bboxLimit || (lonDiff west east).gt bboxLimit

/-- The handler `app.get('/api/parcels-bbox')` with its test of line 562. -/
def bboxSearch (fetch : Request → FetchOutcome) (req : Req) : HandlerResult :=
  parcelsBbox bboxTooLarge fetch req

/-! ## Vocabulary and inputs of the bounding-box claim -/

/-- The latitude span of a request as the handler computes it. -/
def Req.latDiff (req : Req) : Double :=
  ParcelIQ.latDiff (lookupKey "south" req.query) (lookupKey "north" req.query)

/-- The longitude span of a request as the handler computes it. -/
def Req.lonDiff (req : Req) : Double :=
  ParcelIQ.lonDiff (lookupKey "west" req.query) (lookupKey "east" req.query)

/-- All of `west`, `south`, `east`, `north` and `token` are supplied: the guard
of line 558 lets the request pass. -/
def Req.bboxSupplied (req : Req) : Bool :=
  truthy (lookupKey "west" req.query) && truthy (lookupKey "south" req.query)
    && truthy (lookupKey "east" req.query) && truthy (lookupKey "north" req.query)
    && truthy (lookupKey "token" req.query)

/-- The exact value of the decimal literal `parseFloat` reads at the start of a
string, as the fraction `num / den` before any rounding; none when it reads no
decimal literal. -/
def exactDecimal (s : String) : Option (Int × Nat) :=
  match unsignedDecimal (signedRest s).2 with
  | none => none
  | some (m, k) => some (signedNum (signedRest s).1 (m * 10 ^ k.toNat), 10 ^ (-k).toNat)

/-- Whether the span `hi - lo` of two decimal literals, computed exactly on
fractions, exceeds `0.05 = 1/20`. -/
def exactSpanExceeds (hi lo : String) : Bool :=
  match exactDecimal hi, exactDecimal lo with
  | some (a, b), some (c, d) => decide (((b * d : Nat) : Int) < 20 * (a * (d : Int) - c * (b : Int)))
  | _, _ => false

/-- A bounding-box request with the given bounds and the token `t`. -/
def bboxReq (west south east north : String) : Req :=
  { query := [("west", .str west), ("south", .str south), ("east", .str east),
              ("north", .str north), ("token", .str "t")],
    params := [], body := .obj [] }

/-- The call the bounding-box handler makes for `bboxReq`. -/
def bboxCall (west south east north : String) : Request :=
  { method := "GET",
    url := "https://app.regrid.com/api/v1/search.json?bbox=" ++ west ++ "," ++ south ++ ","
      ++ east ++ "," ++ north ++ "&limit=500&token=t",
    headers := [("Accept", some "application/json")], body := none }

/-! ## Vocabulary and inputs of the skip-trace claims -/

/-- The part of a string before its first hyphen; the whole string when it has
none. -/
def beforeFirstHyphen (z : String) : String :=
  ⟨z.data.takeWhile (fun c => c != '-')⟩

/-- A ZIP+4 value: five digits, a hyphen, four digits. -/
def isZipPlus4 (z : String) : Bool :=
  match z.data with
  | [d₁, d₂, d₃, d₄, d₅, h, d₆, d₇, d₈, d₉] =>
    d₁.isDigit && d₂.isDigit && d₃.isDigit && d₄.isDigit && d₅.isDigit && (h == '-')
      && d₆.isDigit && d₇.isDigit && d₈.isDigit && d₉.isDigit
  | _ => false

/-- The first five characters of a string. -/
def firstFive (z : String) : String :=
  ⟨z.data.take 5⟩

/-- The field `name` of the payload a skip-trace call forwards. -/
def Request.payloadField (q : Request) (name : String) : Option JsValue :=
  optField q.body name

/-- A configuration in which only the skip-trace credentials are set. -/
def reapiOnly : Config :=
  { ANTHROPIC_KEY := none, RENTCAST_KEY := none, REAPI_KEY := some "reapi-key",
    REAPI_SECRET := some "reapi-user" }

/-- The request `POST /api/skiptrace` with body
`{"address": "1 Main St", "zip": "-3104"}`: a zip that starts with a hyphen. -/
def hyphenZipReq : Req :=
  { query := [], params := [],
    body := .obj [("address", .str "1 Main St"), ("zip", .str "-3104")] }

/-- The request `POST /api/skiptrace` with body
`{"address": "1 Main St", "zip": 75039}`: the zip is a JSON number. -/
def numericZipReq : Req :=
  { query := [], params := [],
    body := .obj [("address", .str "1 Main St"),
                  ("zip", .num { isZero := false, text := "75039" })] }

/-- The request `POST /api/skiptrace` with body
`{"address": "1 Main St", "city": "Irving", "state": "TX", "zip": "75039-3104"}`. -/
def irvingReq : Req :=
  { query := [], params := [],
    body := .obj [("address", .str "1 Main St"), ("city", .str "Irving"), ("state", .str "TX"),
                  ("zip", .str "75039-3104")] }

/-- The skip-trace call the handler makes with the credentials of `reapiOnly`
and the payload `payload`. -/
def skiptraceCall (payload : JsValue) : Request :=
  { method := "POST", url := "https://api.realestateapi.com/v2/SkipTrace",
    headers := [("x-api-key", some "reapi-key"), ("x-user-id", some "reapi-user"),
                ("Content-Type", some "application/json"), ("Accept", some "application/json")],
    body := some payload }

/-! ## Checks of the embedding on concrete inputs -/

/-- `String([ "a", null, ["b", "c"] ])` is `a,,b,c`. -/
theorem toStr_nested_array :
    (JsValue.arr [.str "a", .null, .arr [.str "b", .str "c"]]).toStr = "a,,b,c" := by rfl

/-- `"a/b/".split('/')` is `["a", "b", ""]`. -/
theorem jsSplit_trailing_separator : jsSplit "a/b/" '/' = ["a", "b", ""] := by decide

/-- `"".split('/')` is `[""]`. -/
theorem jsSplit_empty : jsSplit "" '/' = [""] := by decide

/-- `"75039-3104".split('-')` is `["75039", "3104"]`. -/
theorem jsSplit_zip : jsSplit "75039-3104" '-' = ["75039", "3104"] := by decide

/-- `encodeURIComponent` escapes the blank of a WKT point and keeps the brackets. -/
theorem encodeURIComponent_point :
    encodeURIComponent "POINT(-96.79 32.77)" = "POINT(-96.79%2032.77)" := by decide

/-- `encodeURIComponent` escapes a two-byte character byte by byte. -/
theorem encodeURIComponent_two_bytes : encodeURIComponent "é/" = "%C3%A9%2F" := by decide

/-- The stage-A URL of `?lat=32.77&lon=-96.79`. -/
theorem enrichParcelUrl_dallas :
    (enrichParcelReq dallasReq).url =
      "https://api.lightboxre.com/v1/parcels/us/geometry?wkt=POINT(-96.79%2032.77)&bufferDistance=50&bufferUnit=ft&limit=1" := by
  decide

/-! ## Lemmas on property lists and on the body of the enrichment response -/

/-- Reading a key just assigned gives the assigned value. -/
theorem lookupKey_setKey_same {α : Type} (k : String) (v : α) (l : List (String × α)) :
    lookupKey k (setKey k v l) = some v := by
  induction l with
  | nil => simp [setKey, lookupKey]
  | cons p rest ih =>
    obtain ⟨k', v'⟩ := p
    by_cases h : k' = k
    · simp [setKey, lookupKey, h]
    · simp [setKey, lookupKey, h, ih]

/-- Assigning one key leaves the other keys as they were. -/
theorem lookupKey_setKey_other {α : Type} (k k' : String) (v : α) (l : List (String × α))
    (h : k' ≠ k) : lookupKey k (setKey k' v l) = lookupKey k l := by
  induction l with
  | nil => simp [setKey, lookupKey, h]
  | cons p rest ih =>
    obtain ⟨k₁, v₁⟩ := p
    by_cases h₁ : k₁ = k'
    · subst h₁
      simp [setKey, lookupKey, h]
    · by_cases h₂ : k₁ = k
      · subst h₂
        simp [setKey, lookupKey, h₁]
      · simp [setKey, lookupKey, h₁, h₂, ih]

/-- The key `parcel` of the serialised result. -/
theorem field_parcel (status : Nat) (r : EnrichResult) :
    (Response.json status r.toJson).field "parcel" = some r.parcel := by
  simp [Response.field, EnrichResult.toJson, optField, lookupKey]

/-- The key `zoning` of the serialised result. -/
theorem field_zoning (status : Nat) (r : EnrichResult) :
    (Response.json status r.toJson).field "zoning" = some r.zoning := by
  simp [Response.field, EnrichResult.toJson, optField, lookupKey]

/-- The key `assessment` of the serialised result. -/
theorem field_assessment (status : Nat) (r : EnrichResult) :
    (Response.json status r.toJson).field "assessment" = some r.assessment := by
  simp [Response.field, EnrichResult.toJson, optField, lookupKey]

/-- The key `errors` of the serialised result. -/
theorem field_errors (status : Nat) (r : EnrichResult) :
    (Response.json status r.toJson).field "errors" = some (.obj r.errors) := by
  simp [Response.field, EnrichResult.toJson, optField, lookupKey]

/-- An entry of `errors` in the response is the entry of `result.errors`. -/
theorem error_eq (status : Nat) (r : EnrichResult) (stage : String) :
    (Response.json status r.toJson).error stage = lookupKey stage r.errors := by
  simp [Response.error, field_errors, optField]

/-- The key `lightboxParcelId` of the serialised result. -/
theorem field_lightboxParcelId (status : Nat) (r : EnrichResult) :
    (Response.json status r.toJson).field "lightboxParcelId" = r.lightboxParcelId := by
  cases h₁ : r.lightboxParcelId <;> cases h₂ : r.lightboxAssessmentId <;>
    simp [Response.field, EnrichResult.toJson, optField, lookupKey, optionalKey, h₁, h₂]

/-- The key `lightboxAssessmentId` of the serialised result. -/
theorem field_lightboxAssessmentId (status : Nat) (r : EnrichResult) :
    (Response.json status r.toJson).field "lightboxAssessmentId" = r.lightboxAssessmentId := by
  cases h₁ : r.lightboxParcelId <;> cases h₂ : r.lightboxAssessmentId <;>
    simp [Response.field, EnrichResult.toJson, optField, lookupKey, optionalKey, h₁, h₂]

/-! ## Lemmas on the enrichment handler -/

/-- A validated request runs the `try` block and answers 200 with `result`. -/
theorem enrich_validated (fetch : Request → FetchOutcome) (req : Req)
    (hlat : truthy (lookupKey "lat" req.query) = true)
    (hlon : truthy (lookupKey "lon" req.query) = true) :
    enrich fetch req =
      { response := .json 200
          (match (enrichTry fetch (lookupKey "lat" req.query) (lookupKey "lon" req.query)).thrown with
            | none => (enrichTry fetch (lookupKey "lat" req.query) (lookupKey "lon" req.query)).result
            | some message =>
              (enrichTry fetch (lookupKey "lat" req.query)
                (lookupKey "lon" req.query)).result.setError "general" message).toJson,
        calls := (enrichTry fetch (lookupKey "lat" req.query) (lookupKey "lon" req.query)).calls } := by
  simp [enrich, hlat, hlon]

/-- Line 346 in terms of the first parcel. -/
theorem extractLbId_eq (payload : JsValue) :
    extractLbId payload =
      if truthy (optField (firstParcel payload) "id") then .ok (optField (firstParcel payload) "id")
      else refLastSegment (optField (firstParcel payload) "$ref") := rfl

/-- The `try` block when stage A stored a payload and no identifier came out of
it: the `else` branch of line 378. -/
theorem enrichTry_no_id (fetch : Request → FetchOutcome) (lat lon : Option JsValue)
    (r : UpstreamResponse) (payload : JsValue) (lbId : Option JsValue)
    (hA : fetch (lightboxGet (enrichParcelUrl lat lon)) = .responded r) (hok : r.ok = true)
    (hjson : r.json = .ok payload) (hx : extractLbId payload = .ok lbId)
    (ht : truthy lbId = false) :
    enrichTry fetch lat lon =
      { result :=
          { parcel := payload, zoning := .null, assessment := .null,
            errors := [("zoning", .str "No LightBox parcel ID — cannot fetch zoning"),
                       ("assessment", .str "No LightBox parcel ID — cannot fetch assessment")],
            lightboxParcelId := none, lightboxAssessmentId := none },
        calls := [lightboxGet (enrichParcelUrl lat lon)], thrown := none } := by
  simp [enrichTry, hA, enrichStoreParcel, hok, hjson, hx, ht, EnrichResult.initial,
    EnrichResult.setError, setKey]

/-- The `try` block when stage A stored a payload and line 346 threw. -/
theorem enrichTry_extract_throws (fetch : Request → FetchOutcome) (lat lon : Option JsValue)
    (r : UpstreamResponse) (payload : JsValue) (message : String)
    (hA : fetch (lightboxGet (enrichParcelUrl lat lon)) = .responded r) (hok : r.ok = true)
    (hjson : r.json = .ok payload) (hx : extractLbId payload = .error message) :
    enrichTry fetch lat lon =
      { result :=
          { parcel := payload, zoning := .null, assessment := .null, errors := [],
            lightboxParcelId := none, lightboxAssessmentId := none },
        calls := [lightboxGet (enrichParcelUrl lat lon)], thrown := some message } := by
  simp [enrichTry, hA, enrichStoreParcel, hok, hjson, hx, EnrichResult.initial]

/-- The `try` block when stage A stored a payload and an identifier came out of
it: lines 349-377. -/
theorem enrichTry_with_id (fetch : Request → FetchOutcome) (lat lon : Option JsValue)
    (r : UpstreamResponse) (payload : JsValue) (lbId : Option JsValue)
    (hA : fetch (lightboxGet (enrichParcelUrl lat lon)) = .responded r) (hok : r.ok = true)
    (hjson : r.json = .ok payload) (hx : extractLbId payload = .ok lbId)
    (ht : truthy lbId = true) :
    enrichTry fetch lat lon =
      match enrichStoreZoning (afterParcel payload) (fetch (lightboxGet (enrichZoningUrl lbId))) with
      | .error message =>
        { result := afterParcel payload,
          calls := [lightboxGet (enrichParcelUrl lat lon), lightboxGet (enrichZoningUrl lbId),
                    lightboxGet (enrichAssessmentUrl lbId)],
          thrown := some message }
      | .ok result =>
        match enrichStoreAssessment result (fetch (lightboxGet (enrichAssessmentUrl lbId))) with
        | .error message =>
          { result := result,
            calls := [lightboxGet (enrichParcelUrl lat lon), lightboxGet (enrichZoningUrl lbId),
                      lightboxGet (enrichAssessmentUrl lbId)],
            thrown := some message }
        | .ok result =>
          { result := { result with
                          lightboxParcelId := lbId,
                          lightboxAssessmentId := extractAssessmentId result.assessment },
            calls := [lightboxGet (enrichParcelUrl lat lon), lightboxGet (enrichZoningUrl lbId),
                      lightboxGet (enrichAssessmentUrl lbId)],
            thrown := none } := by
  simp [enrichTry, hA, enrichStoreParcel, hok, hjson, hx, ht, EnrichResult.initial, afterParcel]

/-- The three calls of one enrichment go to three different URLs, whatever the
coordinates and the identifier: the function `fetch` can give them any three
outcomes. -/
theorem enrich_urls_distinct (lat lon a b : Option JsValue) :
    enrichParcelUrl lat lon ≠ enrichZoningUrl a ∧
    enrichParcelUrl lat lon ≠ enrichAssessmentUrl b ∧
    enrichZoningUrl a ≠ enrichAssessmentUrl b := by
  refine ⟨?_, ?_, ?_⟩ <;> intro h <;> have h := congrArg (fun s => s.data.take 31) h <;>
    simp [enrichParcelUrl, enrichZoningUrl, enrichAssessmentUrl, LIGHTBOX_BASE,
      String.data_append] at h

/-- When the zoning body cannot be parsed, the three calls were made, the message
is under `errors.general` and `lightboxParcelId` is missing, at
`?lat=32.77&lon=-96.79` with parcel ID `ABC123`. -/
theorem enrich_zoning_body_unparseable :
    bodyError (zoningGarbled
        (lightboxGet "https://api.lightboxre.com/v1/zoning/_on/parcel/us/ABC123"))
      = some "Unexpected end of JSON input" ∧
    (enrich zoningGarbled dallasReq).calls =
      [enrichParcelReq dallasReq,
       lightboxGet "https://api.lightboxre.com/v1/zoning/_on/parcel/us/ABC123",
       lightboxGet "https://api.lightboxre.com/v1/assessments/_on/parcel/us/ABC123"] ∧
    (enrich zoningGarbled dallasReq).response.field "lightboxParcelId" = none ∧
    (enrich zoningGarbled dallasReq).response.error "general"
      = some (.str "Unexpected end of JSON input") :=
  ⟨rfl, rfl, rfl, rfl⟩

/-! ## Lemmas on the pass-through handlers -/

/-- The shared tail makes exactly the call it is given. -/
theorem relay_calls (fetch : Request → FetchOutcome) (q : Request) :
    (relay fetch q).calls = [q] := by
  unfold relay
  cases fetch q with
  | rejected m => rfl
  | responded r =>
    cases hj : r.json with
    | error m => simp [hj]
    | ok data => cases hok : r.ok <;> simp [hj, hok]

/-- What the shared tail answers, by the outcome of the call. -/
theorem relay_response (fetch : Request → FetchOutcome) (q : Request) :
    (∀ r data, fetch q = .responded r → r.ok = false → r.json = .ok data →
      (relay fetch q).response = .json r.status data) ∧
    (∀ r message, fetch q = .responded r → r.json = .error message →
      (relay fetch q).response = .json 500 (errorBody message)) ∧
    (∀ message, fetch q = .rejected message →
      (relay fetch q).response = .json 500 (errorBody message)) := by
  refine ⟨?_, ?_, ?_⟩
  · intro r data h hok hj
    simp [relay, h, hok, hj]
  · intro r message h hj
    simp [relay, h, hj]
  · intro message h
    simp [relay, h]

/-- Every pass-through handler other than the AI chat either answers without an
upstream call or runs the shared tail on one request. -/
theorem handler_no_call_or_relay (e : Endpoint) (he : e ≠ .claude) (w : World) (req : Req) :
    (e.handler w req).calls = [] ∨ ∃ q, e.handler w req = relay w.fetch q := by
  cases e with
  | claude => exact absurd rfl he
  | parcelsGeometry =>
    simp only [Endpoint.handler, parcelsGeometry]
    split
    · exact Or.inl rfl
    · exact Or.inr ⟨_, rfl⟩
  | parcelsAddress =>
    simp only [Endpoint.handler, parcelsAddress, byAddress]
    split
    · exact Or.inl rfl
    · exact Or.inr ⟨_, rfl⟩
  | zoningAddress =>
    simp only [Endpoint.handler, zoningAddress, byAddress]
    split
    · exact Or.inl rfl
    · exact Or.inr ⟨_, rfl⟩
  | assessmentAddress =>
    simp only [Endpoint.handler, assessmentAddress, byAddress]
    split
    · exact Or.inl rfl
    · exact Or.inr ⟨_, rfl⟩
  | parcelById => exact Or.inr ⟨_, rfl⟩
  | zoningByParcel => exact Or.inr ⟨_, rfl⟩
  | assessmentByParcel => exact Or.inr ⟨_, rfl⟩
  | history => exact Or.inr ⟨_, rfl⟩
  | portfolio => exact Or.inr ⟨_, rfl⟩
  | parcelAdjacent => exact Or.inr ⟨_, rfl⟩
  | adjacent => exact Or.inr ⟨_, rfl⟩
  | listings =>
    simp only [Endpoint.handler, listings]
    split
    · exact Or.inl rfl
    · split
      · exact Or.inl rfl
      · exact Or.inr ⟨_, rfl⟩
  | comps =>
    simp only [Endpoint.handler, comps]
    split
    · exact Or.inl rfl
    · split
      · exact Or.inl rfl
      · exact Or.inr ⟨_, rfl⟩
  | skiptrace =>
    simp only [Endpoint.handler, skiptrace]
    split
    · exact Or.inl rfl
    · split
      · exact Or.inl rfl
      · split
        · exact Or.inl rfl
        · split
          · split
            · exact Or.inl rfl
            · exact Or.inr ⟨_, rfl⟩
          · exact Or.inl rfl
  | parcelsBbox =>
    simp only [Endpoint.handler, parcelsBbox]
    split
    · exact Or.inl rfl
    · split
      · exact Or.inl rfl
      · split
        · exact Or.inl rfl
        · split
          · exact Or.inl rfl
          · split
            · exact Or.inl rfl
            · split
              · exact Or.inl rfl
              · exact Or.inr ⟨_, rfl⟩

/-- The AI chat handler always makes exactly one upstream call. -/
theorem claude_calls (cfg : Config) (fetch : Request → FetchOutcome) (req : Req) :
    (claude cfg fetch req).calls = [claudeRequest cfg req] := by
  simp only [claude]
  cases fetch (claudeRequest cfg req) with
  | rejected m => rfl
  | responded r =>
    cases hok : r.ok <;> cases hj : r.json <;> cases hr : r.readError <;>
      cases hc : r.chunks <;> simp [hok, hj, hr, hc]

/-- The guard the three sibling handlers have: without their credential,
`/api/comps`, `/api/listings` and `/api/skiptrace` answer 503 and make no
upstream call. -/
theorem credential_guard (cfg : Config) (fetch : Request → FetchOutcome) (req : Req) :
    (envTruthy cfg.RENTCAST_KEY = false →
      (comps cfg fetch req).response.status? = some 503 ∧ (comps cfg fetch req).calls = [] ∧
      (listings cfg fetch req).response.status? = some 503 ∧
      (listings cfg fetch req).calls = []) ∧
    (envTruthy cfg.REAPI_KEY = false →
      (skiptrace cfg fetch req).response.status? = some 503 ∧
      (skiptrace cfg fetch req).calls = []) := by
  constructor
  · intro h
    simp [comps, listings, h, Response.status?]
  · intro h
    simp [skiptrace, h, Response.status?]

/-! ## The claims -/

/-- C1: a GET /api/enrich request whose `lat` and `lon` pass the guard of line
324 (both truthy: for query values, present and not the empty string) is
answered with status 200 and a JSON object that has the keys `parcel`, `zoning`,
`assessment` and `errors` (an object), whatever the upstream calls do: reject,
answer any status, or deliver a body `json()` cannot parse. -/
theorem enrich_status_200_and_keys (fetch : Request → FetchOutcome) (req : Req)
    (hlat : truthy (lookupKey "lat" req.query) = true)
    (hlon : truthy (lookupKey "lon" req.query) = true) :
    (enrich fetch req).response.status? = some 200 ∧
    (∃ body, (enrich fetch req).response = .json 200 body) ∧
    ((enrich fetch req).response.field "parcel").isSome = true ∧
    ((enrich fetch req).response.field "zoning").isSome = true ∧
    ((enrich fetch req).response.field "assessment").isSome = true ∧
    (∃ errs, (enrich fetch req).response.field "errors" = some (.obj errs)) := by
  rw [enrich_validated fetch req hlat hlon]
  simp [Response.status?, field_parcel, field_zoning, field_assessment, field_errors]

/-- The claim C1 at the request `?lat=32.77&lon=-96.79` with every upstream call
rejected. -/
theorem enrich_status_200_and_keys_witness :
    truthy (lookupKey "lat" [("lat", .str "32.77"), ("lon", .str "-96.79")]) = true ∧
    truthy (lookupKey "lon" [("lat", .str "32.77"), ("lon", .str "-96.79")]) = true ∧
    (enrich (fun _ => .rejected "fetch failed")
        { query := [("lat", .str "32.77"), ("lon", .str "-96.79")], params := [],
          body := .obj [] }).response.status? = some 200 :=
  ⟨by decide, by decide,
   (enrich_status_200_and_keys (fun _ => .rejected "fetch failed")
      { query := [("lat", .str "32.77"), ("lon", .str "-96.79")], params := [], body := .obj [] }
      (by decide) (by decide)).1⟩

/-- C2: a GET /api/enrich request in which `lat` or `lon` is missing (absent, or
the empty string) is answered with status 400 and makes no upstream call. -/
theorem enrich_missing_param_400 (fetch : Request → FetchOutcome) (req : Req)
    (h : missing (lookupKey "lat" req.query) ∨ missing (lookupKey "lon" req.query)) :
    (enrich fetch req).response = .json 400 (errorBody "lat and lon required") ∧
    (enrich fetch req).calls = [] := by
  have hf : (!truthy (lookupKey "lat" req.query) || !truthy (lookupKey "lon" req.query)) = true := by
    rcases h with h | h <;> rcases h with h | h <;> simp [h, truthy, JsValue.truthy]
  simp [enrich, hf]

/-- The claim C2 at the request `?lon=-96.79`, which has no `lat`. -/
theorem enrich_missing_param_400_witness :
    missing (lookupKey "lat" [("lon", JsValue.str "-96.79")]) ∧
    (enrich (fun _ => .rejected "unreachable")
        { query := [("lon", .str "-96.79")], params := [], body := .obj [] }).response
      = .json 400 (errorBody "lat and lon required") ∧
    (enrich (fun _ => .rejected "unreachable")
        { query := [("lon", .str "-96.79")], params := [], body := .obj [] }).calls = [] :=
  ⟨Or.inl rfl,
   enrich_missing_param_400 (fun _ => .rejected "unreachable")
     { query := [("lon", .str "-96.79")], params := [], body := .obj [] }
     (Or.inl (Or.inl rfl))⟩

/-- C3, as amended: in a validated /api/enrich request exactly one upstream call
is made whenever stage A fails. When stage A completes with a non-success
status, `errors.parcel` is `HTTP <status>`, `parcel` is null, and `errors.zoning`
and `errors.assessment` hold the "No LightBox parcel ID" messages. When the
stage-A call throws, the `catch` of line 384 records the message under
`errors.general`, and `errors.parcel`, `errors.zoning` and `errors.assessment`
are absent. -/
theorem enrich_stageA_failure (fetch : Request → FetchOutcome) (req : Req)
    (hlat : truthy (lookupKey "lat" req.query) = true)
    (hlon : truthy (lookupKey "lon" req.query) = true) :
    (∀ r, fetch (enrichParcelReq req) = .responded r → r.ok = false →
      (enrich fetch req).calls = [enrichParcelReq req] ∧
      (enrich fetch req).response.field "parcel" = some .null ∧
      (enrich fetch req).response.error "parcel" = some (.str ("HTTP " ++ toString r.status)) ∧
      (enrich fetch req).response.error "zoning"
        = some (.str "No LightBox parcel ID — cannot fetch zoning") ∧
      (enrich fetch req).response.error "assessment"
        = some (.str "No LightBox parcel ID — cannot fetch assessment") ∧
      (enrich fetch req).response.error "general" = none) ∧
    (∀ message, fetch (enrichParcelReq req) = .rejected message →
      (enrich fetch req).calls = [enrichParcelReq req] ∧
      (enrich fetch req).response.field "parcel" = some .null ∧
      (enrich fetch req).response.error "general" = some (.str message) ∧
      (enrich fetch req).response.error "parcel" = none ∧
      (enrich fetch req).response.error "zoning" = none ∧
      (enrich fetch req).response.error "assessment" = none) := by
  rw [enrich_validated fetch req hlat hlon]
  unfold enrichParcelReq
  constructor
  · intro r h hok
    simp [enrichTry, h, enrichStoreParcel, hok, extractLbId, optField, optIndex0, truthy,
      refLastSegment, EnrichResult.initial, EnrichResult.setError, error_eq, field_parcel,
      lookupKey, setKey]
  · intro message h
    simp [enrichTry, h, EnrichResult.initial, EnrichResult.setError, error_eq, field_parcel,
      lookupKey, setKey]

/-- The amended claim C3 at `?lat=32.77&lon=-96.79` with stage A answering 404. -/
theorem enrich_stageA_failure_witness :
    truthy (lookupKey "lat" dallasReq.query) = true ∧
    truthy (lookupKey "lon" dallasReq.query) = true ∧
    (jsonResponse 404 (.obj [])).ok = false ∧
    (enrich (fun _ => .responded (jsonResponse 404 (.obj []))) dallasReq).calls
      = [enrichParcelReq dallasReq] ∧
    (enrich (fun _ => .responded (jsonResponse 404 (.obj []))) dallasReq).response.error "zoning"
      = some (.str "No LightBox parcel ID — cannot fetch zoning") :=
  ⟨by decide, by decide, by decide,
   ((enrich_stageA_failure (fun _ => .responded (jsonResponse 404 (.obj []))) dallasReq
      (by decide) (by decide)).1 (jsonResponse 404 (.obj [])) rfl (by decide)).1,
   ((enrich_stageA_failure (fun _ => .responded (jsonResponse 404 (.obj []))) dallasReq
      (by decide) (by decide)).1 (jsonResponse 404 (.obj [])) rfl (by decide)).2.2.2.1⟩

/-- C3 as stated fails when stage A fails by a transport exception: at
`?lat=32.77&lon=-96.79` with the stage-A call rejected with `ECONNREFUSED`, the
response has no `errors.zoning` and no `errors.assessment`; the message is under
`errors.general`. -/
theorem enrich_stageA_exception_counterexample :
    truthy (lookupKey "lat" dallasReq.query) = true ∧
    truthy (lookupKey "lon" dallasReq.query) = true ∧
    (enrich (fun _ => .rejected "ECONNREFUSED") dallasReq).response.error "zoning" = none ∧
    (enrich (fun _ => .rejected "ECONNREFUSED") dallasReq).response.error "assessment" = none ∧
    (enrich (fun _ => .rejected "ECONNREFUSED") dallasReq).response.error "general"
      = some (.str "ECONNREFUSED") :=
  ⟨by decide, by decide, rfl, rfl, rfl⟩

/-- C4, as amended: in a validated /api/enrich request whose stage A succeeds
(success status, parseable payload) with a payload that has no `parcels[0]`, or
whose `parcels[0]` has no truthy `id` and a `$ref` that is absent, null, or a
string whose last `/`-segment is empty, `parcel` is the payload, `errors.zoning`
and `errors.assessment` hold the "No LightBox parcel ID" messages,
`errors.parcel` is absent, and the stage-A call is the only upstream call. When
`id` is not truthy and `$ref` is of any other type, the call of `.split` throws and
the `catch` records the message under `errors.general` instead; again no further
call is made. -/
theorem enrich_no_parcel_id (fetch : Request → FetchOutcome) (req : Req)
    (r : UpstreamResponse) (payload : JsValue)
    (hlat : truthy (lookupKey "lat" req.query) = true)
    (hlon : truthy (lookupKey "lon" req.query) = true)
    (hA : fetch (enrichParcelReq req) = .responded r) (hok : r.ok = true)
    (hjson : r.json = .ok payload) :
    ((firstParcel payload = none ∨
       (truthy (optField (firstParcel payload) "id") = false ∧
         (optField (firstParcel payload) "$ref" = none ∨
          optField (firstParcel payload) "$ref" = some .null ∨
          ∃ s, optField (firstParcel payload) "$ref" = some (.str s) ∧
            (jsSplit s '/').getLast? = some ""))) →
      (enrich fetch req).response.field "parcel" = some payload ∧
      (enrich fetch req).response.error "zoning"
        = some (.str "No LightBox parcel ID — cannot fetch zoning") ∧
      (enrich fetch req).response.error "assessment"
        = some (.str "No LightBox parcel ID — cannot fetch assessment") ∧
      (enrich fetch req).response.error "parcel" = none ∧
      (enrich fetch req).response.error "general" = none ∧
      (enrich fetch req).calls = [enrichParcelReq req]) ∧
    (truthy (optField (firstParcel payload) "id") = false →
      (∀ v, optField (firstParcel payload) "$ref" = some v → v ≠ .null → (∀ s, v ≠ .str s) →
        (enrich fetch req).response.field "parcel" = some payload ∧
        (enrich fetch req).response.error "general" = some (.str splitTypeError) ∧
        (enrich fetch req).response.error "zoning" = none ∧
        (enrich fetch req).response.error "assessment" = none ∧
        (enrich fetch req).calls = [enrichParcelReq req])) := by
  rw [enrich_validated fetch req hlat hlon]
  unfold enrichParcelReq at *
  constructor
  · intro h
    have hid : truthy (optField (firstParcel payload) "id") = false := by
      rcases h with h | h
      · simp [h, optField, truthy]
      · exact h.1
    have href : ∃ lbId, refLastSegment (optField (firstParcel payload) "$ref") = .ok lbId ∧
        truthy lbId = false := by
      rcases h with h | ⟨_, h | h | ⟨s, h, hs⟩⟩
      · exact ⟨none, by simp [h, optField, refLastSegment], rfl⟩
      · exact ⟨none, by simp [h, refLastSegment], rfl⟩
      · exact ⟨none, by simp [h, refLastSegment], rfl⟩
      · exact ⟨some (.str ""), by simp [h, refLastSegment, hs], rfl⟩
    obtain ⟨lbId, href, ht⟩ := href
    have hx : extractLbId payload = .ok lbId := by
      rw [extractLbId_eq, hid]; simpa using href
    rw [enrichTry_no_id fetch _ _ r payload lbId hA hok hjson hx ht]
    simp [error_eq, field_parcel, lookupKey]
  · intro hid v hv hnull hstr
    have href : refLastSegment (optField (firstParcel payload) "$ref") = .error splitTypeError := by
      rw [hv]
      cases v with
      | null => exact absurd rfl hnull
      | str s => exact absurd rfl (hstr s)
      | bool b => rfl
      | num n => rfl
      | arr items => rfl
      | obj fields => rfl
    have hx : extractLbId payload = .error splitTypeError := by
      rw [extractLbId_eq, hid]; simpa using href
    rw [enrichTry_extract_throws fetch _ _ r payload _ hA hok hjson hx]
    simp [EnrichResult.setError, error_eq, field_parcel, lookupKey, setKey]

/-- The amended claim C4 at `?lat=32.77&lon=-96.79` with stage A answering 200
and the payload `{"parcels": []}`. -/
theorem enrich_no_parcel_id_witness :
    truthy (lookupKey "lat" dallasReq.query) = true ∧
    truthy (lookupKey "lon" dallasReq.query) = true ∧
    (jsonResponse 200 (.obj [("parcels", .arr [])])).ok = true ∧
    firstParcel (.obj [("parcels", .arr [])]) = none ∧
    (enrich (fun _ => .responded (jsonResponse 200 (.obj [("parcels", .arr [])])))
        dallasReq).response.error "zoning"
      = some (.str "No LightBox parcel ID — cannot fetch zoning") ∧
    (enrich (fun _ => .responded (jsonResponse 200 (.obj [("parcels", .arr [])])))
        dallasReq).calls = [enrichParcelReq dallasReq] :=
  ⟨by decide, by decide, by decide, rfl,
   ((enrich_no_parcel_id (fun _ => .responded (jsonResponse 200 (.obj [("parcels", .arr [])])))
      dallasReq (jsonResponse 200 (.obj [("parcels", .arr [])])) (.obj [("parcels", .arr [])])
      (by decide) (by decide) rfl (by decide) rfl).1 (Or.inl rfl)).2.1,
   ((enrich_no_parcel_id (fun _ => .responded (jsonResponse 200 (.obj [("parcels", .arr [])])))
      dallasReq (jsonResponse 200 (.obj [("parcels", .arr [])])) (.obj [("parcels", .arr [])])
      (by decide) (by decide) rfl (by decide) rfl).1 (Or.inl rfl)).2.2.2.2.2⟩

/-- C4 as stated fails on a payload whose first parcel has no `id` and a `$ref`
that is not a string: at `?lat=32.77&lon=-96.79` with stage A answering 200 and
`{"parcels": [{"$ref": 5}]}`, no identifier is extracted and no further call is
made, but `errors.zoning` and `errors.assessment` are absent; the `TypeError` of
`.split` is under `errors.general`. -/
theorem enrich_numeric_ref_counterexample :
    (jsonResponse 200 numericRefPayload).ok = true ∧
    optField (firstParcel numericRefPayload) "id" = none ∧
    (enrich (fun _ => .responded (jsonResponse 200 numericRefPayload)) dallasReq).calls
      = [enrichParcelReq dallasReq] ∧
    (enrich (fun _ => .responded (jsonResponse 200 numericRefPayload)) dallasReq).response.error
      "zoning" = none ∧
    (enrich (fun _ => .responded (jsonResponse 200 numericRefPayload)) dallasReq).response.error
      "assessment" = none ∧
    (enrich (fun _ => .responded (jsonResponse 200 numericRefPayload)) dallasReq).response.error
      "general" = some (.str splitTypeError) :=
  ⟨by decide, rfl, rfl, rfl, rfl, rfl⟩

/-- C5, as amended: after a successful stage A, the parcel identifier is
`parcels[0].id` when that field is truthy (present and not null, false, zero or
the empty string), and otherwise the last `/`-separated segment of
`parcels[0].$ref` when that is a string. When the identifier is truthy and has a
string form, it is the one interpolated into the zoning and the assessment URL,
which are the second and third upstream calls. It is returned as
`lightboxParcelId`, with no `errors.general`, exactly when reading neither the
stage-B nor the stage-C body throws; when reading the stage-B body throws, or
the stage-B body is read and reading the stage-C body throws, the message of
that exception is recorded under `errors.general` and `lightboxParcelId` is
missing. -/
theorem enrich_parcel_id_used (fetch : Request → FetchOutcome) (req : Req)
    (r : UpstreamResponse) (payload : JsValue) (lbId : Option JsValue)
    (hlat : truthy (lookupKey "lat" req.query) = true)
    (hlon : truthy (lookupKey "lon" req.query) = true)
    (hA : fetch (enrichParcelReq req) = .responded r) (hok : r.ok = true)
    (hjson : r.json = .ok payload)
    (hid : (truthy (optField (firstParcel payload) "id") = true ∧
              lbId = optField (firstParcel payload) "id") ∨
           (truthy (optField (firstParcel payload) "id") = false ∧
              ∃ s seg, optField (firstParcel payload) "$ref" = some (.str s) ∧
                (jsSplit s '/').getLast? = some seg ∧ lbId = some (.str seg)))
    (ht : truthy lbId = true) (_hstr : interpolable lbId = true) :
    (enrich fetch req).calls =
      [enrichParcelReq req,
       lightboxGet (LIGHTBOX_BASE ++ "/zoning/_on/parcel/us/" ++ interp lbId),
       lightboxGet (LIGHTBOX_BASE ++ "/assessments/_on/parcel/us/" ++ interp lbId)] ∧
    (((enrich fetch req).response.field "lightboxParcelId" = lbId ∧
        (enrich fetch req).response.error "general" = none) ∨
     ((enrich fetch req).response.field "lightboxParcelId" = none ∧
        ∃ message, (enrich fetch req).response.error "general" = some (.str message))) ∧
    (bodyThrows (fetch (lightboxGet (LIGHTBOX_BASE ++ "/zoning/_on/parcel/us/" ++ interp lbId)))
        = false →
     bodyThrows (fetch (lightboxGet (LIGHTBOX_BASE ++ "/assessments/_on/parcel/us/" ++ interp lbId)))
        = false →
     (enrich fetch req).response.field "lightboxParcelId" = lbId ∧
     (enrich fetch req).response.error "general" = none) ∧
    (∀ message,
      bodyError (fetch (lightboxGet (LIGHTBOX_BASE ++ "/zoning/_on/parcel/us/" ++ interp lbId)))
        = some message →
      (enrich fetch req).response.field "lightboxParcelId" = none ∧
      (enrich fetch req).response.error "general" = some (.str message)) ∧
    (∀ message,
      bodyThrows (fetch (lightboxGet (LIGHTBOX_BASE ++ "/zoning/_on/parcel/us/" ++ interp lbId)))
        = false →
      bodyError (fetch (lightboxGet (LIGHTBOX_BASE ++ "/assessments/_on/parcel/us/" ++ interp lbId)))
        = some message →
      (enrich fetch req).response.field "lightboxParcelId" = none ∧
      (enrich fetch req).response.error "general" = some (.str message)) := by
  have hx : extractLbId payload = .ok lbId := by
    rw [extractLbId_eq]
    rcases hid with ⟨h₁, h₂⟩ | ⟨h₁, s, seg, h₂, h₃, h₄⟩
    · simp [h₁, h₂]
    · simp [h₁, h₂, refLastSegment, h₃, h₄]
  rw [enrich_validated fetch req hlat hlon]
  unfold enrichParcelReq at *
  rw [enrichTry_with_id fetch _ _ r payload lbId hA hok hjson hx ht]
  cases hz : fetch (lightboxGet (enrichZoningUrl lbId)) with
  | rejected mz =>
    cases hc : fetch (lightboxGet (enrichAssessmentUrl lbId)) with
    | rejected ma =>
      simp [enrichZoningUrl, enrichAssessmentUrl] at hz hc
      simp [enrichStoreZoning, enrichStoreAssessment, enrichZoningUrl, enrichAssessmentUrl,
        field_lightboxParcelId, error_eq, EnrichResult.setError, afterParcel, lookupKey, setKey,
        bodyThrows, bodyError, hz, hc]
    | responded rc =>
      simp [enrichZoningUrl, enrichAssessmentUrl] at hz hc
      cases hcok : rc.ok <;> cases hcj : rc.json <;>
        simp [enrichStoreZoning, enrichStoreAssessment, enrichZoningUrl, enrichAssessmentUrl,
        field_lightboxParcelId, error_eq, EnrichResult.setError, afterParcel, lookupKey, setKey,
        bodyThrows, bodyError, hz, hc, hcok, hcj]
  | responded rb =>
    cases hc : fetch (lightboxGet (enrichAssessmentUrl lbId)) with
    | rejected ma =>
      simp [enrichZoningUrl, enrichAssessmentUrl] at hz hc
      cases hbok : rb.ok <;> cases hbj : rb.json <;>
        simp [enrichStoreZoning, enrichStoreAssessment, enrichZoningUrl, enrichAssessmentUrl,
        field_lightboxParcelId, error_eq, EnrichResult.setError, afterParcel, lookupKey, setKey,
        bodyThrows, bodyError, hz, hc, hbok, hbj]
    | responded rc =>
      simp [enrichZoningUrl, enrichAssessmentUrl] at hz hc
      cases hbok : rb.ok <;> cases hbj : rb.json <;> cases hcok : rc.ok <;> cases hcj : rc.json <;>
        simp [enrichStoreZoning, enrichStoreAssessment, enrichZoningUrl, enrichAssessmentUrl,
        field_lightboxParcelId, error_eq, EnrichResult.setError, afterParcel, lookupKey, setKey,
        bodyThrows, bodyError, hz, hc, hbok, hbj, hcok, hcj]

/-- The amended claim C5 at `?lat=32.77&lon=-96.79` with every upstream call
answering 200 and `{"parcels": [{"id": "ABC123"}]}`. -/
theorem enrich_parcel_id_used_witness :
    truthy (optField (firstParcel abcPayload) "id") = true ∧
    interpolable (some (.str "ABC123")) = true ∧
    (enrich (fun _ => .responded (jsonResponse 200 abcPayload)) dallasReq).calls =
      [enrichParcelReq dallasReq,
       lightboxGet "https://api.lightboxre.com/v1/zoning/_on/parcel/us/ABC123",
       lightboxGet "https://api.lightboxre.com/v1/assessments/_on/parcel/us/ABC123"] ∧
    (enrich (fun _ => .responded (jsonResponse 200 abcPayload)) dallasReq).response.field
      "lightboxParcelId" = some (.str "ABC123") ∧
    (enrich (fun _ => .responded (jsonResponse 200 abcPayload)) dallasReq).response.error
      "general" = none :=
  ⟨by decide, rfl,
   (enrich_parcel_id_used (fun _ => .responded (jsonResponse 200 abcPayload)) dallasReq
      (jsonResponse 200 abcPayload) abcPayload (some (.str "ABC123"))
      (by decide) (by decide) rfl (by decide) rfl (Or.inl ⟨by decide, rfl⟩) (by decide) rfl).1,
   (enrich_parcel_id_used (fun _ => .responded (jsonResponse 200 abcPayload)) dallasReq
      (jsonResponse 200 abcPayload) abcPayload (some (.str "ABC123"))
      (by decide) (by decide) rfl (by decide) rfl (Or.inl ⟨by decide, rfl⟩) (by decide) rfl).2.2.1
      (by decide) (by decide)⟩

/-- C5 as stated fails on a first parcel whose `id` is present but not truthy:
with `id` the empty string and a `$ref` ending in `0200ABC`, the identifier
interpolated into the two URLs and returned as `lightboxParcelId` is `0200ABC`,
not the `id` field. -/
theorem enrich_empty_id_counterexample :
    optField (firstParcel emptyIdPayload) "id" = some (.str "") ∧
    (enrich (fun _ => .responded (jsonResponse 200 emptyIdPayload)) dallasReq).calls =
      [enrichParcelReq dallasReq,
       lightboxGet "https://api.lightboxre.com/v1/zoning/_on/parcel/us/0200ABC",
       lightboxGet "https://api.lightboxre.com/v1/assessments/_on/parcel/us/0200ABC"] ∧
    (enrich (fun _ => .responded (jsonResponse 200 emptyIdPayload)) dallasReq).response.field
      "lightboxParcelId" = some (.str "0200ABC") :=
  ⟨rfl, rfl, rfl⟩

/-- C6: in a validated /api/enrich request whose stage A yields a parcel ID,
stages B and C are handled independently. If the zoning call fails (rejected, or
completed with a non-success status) while the assessment call succeeds, the
response has status 200, `zoning` null, `errors.zoning` equal to the exception
message or to `HTTP <status>`, `assessment` equal to the stage-C payload and no
`errors.assessment`; and the same with the two stages swapped. -/
theorem enrich_stage_independence (fetch : Request → FetchOutcome) (req : Req)
    (r : UpstreamResponse) (payload : JsValue) (lbId : Option JsValue)
    (hlat : truthy (lookupKey "lat" req.query) = true)
    (hlon : truthy (lookupKey "lon" req.query) = true)
    (hA : fetch (enrichParcelReq req) = .responded r) (hok : r.ok = true)
    (hjson : r.json = .ok payload) (hx : extractLbId payload = .ok lbId)
    (ht : truthy lbId = true) :
    (∀ message rc pc,
      failureMessage (fetch (lightboxGet (enrichZoningUrl lbId))) = some message →
      fetch (lightboxGet (enrichAssessmentUrl lbId)) = .responded rc → rc.ok = true →
      rc.json = .ok pc →
        (enrich fetch req).response.status? = some 200 ∧
        (enrich fetch req).response.field "zoning" = some .null ∧
        (enrich fetch req).response.error "zoning" = some (.str message) ∧
        (enrich fetch req).response.field "assessment" = some pc ∧
        (enrich fetch req).response.error "assessment" = none) ∧
    (∀ message rb pb,
      failureMessage (fetch (lightboxGet (enrichAssessmentUrl lbId))) = some message →
      fetch (lightboxGet (enrichZoningUrl lbId)) = .responded rb → rb.ok = true →
      rb.json = .ok pb →
        (enrich fetch req).response.status? = some 200 ∧
        (enrich fetch req).response.field "assessment" = some .null ∧
        (enrich fetch req).response.error "assessment" = some (.str message) ∧
        (enrich fetch req).response.field "zoning" = some pb ∧
        (enrich fetch req).response.error "zoning" = none) := by
  rw [enrich_validated fetch req hlat hlon]
  unfold enrichParcelReq at *
  rw [enrichTry_with_id fetch _ _ r payload lbId hA hok hjson hx ht]
  constructor
  · intro message rc pc hfail hC hcok hcj
    cases hz : fetch (lightboxGet (enrichZoningUrl lbId)) with
    | rejected mz =>
      simp [hz, failureMessage] at hfail
      simp [enrichStoreZoning, enrichStoreAssessment, hC, hcok, hcj, hfail, Response.status?,
        field_zoning, field_assessment, error_eq, EnrichResult.setError, afterParcel, lookupKey,
        setKey]
    | responded rb =>
      cases hbok : rb.ok
      · simp [hz, failureMessage, hbok] at hfail
        simp [enrichStoreZoning, enrichStoreAssessment, hC, hcok, hcj, hbok, hfail,
          Response.status?, field_zoning, field_assessment, error_eq, EnrichResult.setError,
          afterParcel, lookupKey, setKey]
      · simp [hz, failureMessage, hbok] at hfail
  · intro message rb pb hfail hB hbok hbj
    cases hc : fetch (lightboxGet (enrichAssessmentUrl lbId)) with
    | rejected mc =>
      simp [hc, failureMessage] at hfail
      simp [enrichStoreZoning, enrichStoreAssessment, hB, hbok, hbj, hfail, Response.status?,
        field_zoning, field_assessment, error_eq, EnrichResult.setError, afterParcel, lookupKey,
        setKey]
    | responded rc =>
      cases hcok : rc.ok
      · simp [hc, failureMessage, hcok] at hfail
        simp [enrichStoreZoning, enrichStoreAssessment, hB, hbok, hbj, hcok, hfail,
          Response.status?, field_zoning, field_assessment, error_eq, EnrichResult.setError,
          afterParcel, lookupKey, setKey]
      · simp [hc, failureMessage, hcok] at hfail

/-- The claim C6 at `?lat=32.77&lon=-96.79` with parcel ID `ABC123`, the zoning
call answering 503 and the assessment call answering 200. -/
theorem enrich_stage_independence_witness :
    extractLbId abcPayload = .ok (some (.str "ABC123")) ∧
    failureMessage (zoningDown (lightboxGet (enrichZoningUrl (some (.str "ABC123")))))
      = some "HTTP 503" ∧
    (enrich zoningDown dallasReq).response.status? = some 200 ∧
    (enrich zoningDown dallasReq).response.field "zoning" = some .null ∧
    (enrich zoningDown dallasReq).response.error "zoning" = some (.str "HTTP 503") ∧
    (enrich zoningDown dallasReq).response.field "assessment" = some abcPayload ∧
    (enrich zoningDown dallasReq).response.error "assessment" = none :=
  ⟨rfl, by decide,
   (enrich_stage_independence zoningDown dallasReq (jsonResponse 200 abcPayload) abcPayload
      (some (.str "ABC123")) (by decide) (by decide) rfl (by decide) rfl rfl (by decide)).1
      "HTTP 503" (jsonResponse 200 abcPayload) abcPayload (by decide) rfl (by decide) rfl⟩

/-- C7, as amended: in a validated /api/enrich request in which stage A
succeeds with parcel ID `p`, stage B succeeds and stage C succeeds, the result
has `parcel`, `zoning` and `assessment` set to the three payloads,
`lightboxParcelId = p` and an empty `errors` object; `lightboxAssessmentId` is
`assessments[0].id` of the stage-C payload when that field is truthy, and null
when it is not (absent, or null, false, zero or the empty string). -/
theorem enrich_all_stages_succeed (fetch : Request → FetchOutcome) (req : Req)
    (ra rb rc : UpstreamResponse) (pa pb pc p : JsValue)
    (hlat : truthy (lookupKey "lat" req.query) = true)
    (hlon : truthy (lookupKey "lon" req.query) = true)
    (hA : fetch (enrichParcelReq req) = .responded ra) (haok : ra.ok = true)
    (haj : ra.json = .ok pa) (hx : extractLbId pa = .ok (some p))
    (ht : truthy (some p) = true)
    (hB : fetch (lightboxGet (enrichZoningUrl (some p))) = .responded rb) (hbok : rb.ok = true)
    (hbj : rb.json = .ok pb)
    (hC : fetch (lightboxGet (enrichAssessmentUrl (some p))) = .responded rc)
    (hcok : rc.ok = true) (hcj : rc.json = .ok pc) :
    (enrich fetch req).response.status? = some 200 ∧
    (enrich fetch req).response.field "parcel" = some pa ∧
    (enrich fetch req).response.field "zoning" = some pb ∧
    (enrich fetch req).response.field "assessment" = some pc ∧
    (enrich fetch req).response.field "lightboxParcelId" = some p ∧
    (enrich fetch req).response.field "errors" = some (.obj []) ∧
    (∀ a, firstAssessmentId pc = some a → truthy (some a) = true →
      (enrich fetch req).response.field "lightboxAssessmentId" = some a) ∧
    (truthy (firstAssessmentId pc) = false →
      (enrich fetch req).response.field "lightboxAssessmentId" = some .null) := by
  rw [enrich_validated fetch req hlat hlon]
  unfold enrichParcelReq at *
  rw [enrichTry_with_id fetch _ _ ra pa (some p) hA haok haj hx ht]
  simp only [enrichStoreZoning, enrichStoreAssessment, hB, hC, hbok, hcok, hbj, hcj, if_true]
  refine ⟨rfl, ?_, ?_, ?_, ?_, ?_, ?_, ?_⟩
  · simp [field_parcel, afterParcel]
  · simp [field_zoning]
  · simp [field_assessment]
  · simp [field_lightboxParcelId]
  · simp [field_errors, afterParcel]
  · intro a ha hta
    have : extractAssessmentId pc = some a := by
      unfold firstAssessmentId at ha
      simp [extractAssessmentId, ha, jsOr, hta]
    simp [field_lightboxAssessmentId, this]
  · intro hf
    have : extractAssessmentId pc = some .null := by
      unfold firstAssessmentId at hf
      simp [extractAssessmentId, jsOr, hf]
    simp [field_lightboxAssessmentId, this]

/-- The amended claim C7 at the end-to-end scenario of the specification:
`?lat=32.77&lon=-96.79`, stage A with ID `ABC123`, stage C with
`assessments[0].id = "Z9"`. -/
theorem enrich_all_stages_succeed_witness :
    extractLbId abcPayload = .ok (some (.str "ABC123")) ∧
    firstAssessmentId z9Payload = some (.str "Z9") ∧
    (enrich (allUp z9Payload) dallasReq).response.field "lightboxParcelId"
      = some (.str "ABC123") ∧
    (enrich (allUp z9Payload) dallasReq).response.field "errors" = some (.obj []) ∧
    (enrich (allUp z9Payload) dallasReq).response.field "lightboxAssessmentId"
      = some (.str "Z9") :=
  ⟨rfl, rfl,
   (enrich_all_stages_succeed (allUp z9Payload) dallasReq (jsonResponse 200 abcPayload)
      (jsonResponse 200 (.obj [("zonings", .arr [])])) (jsonResponse 200 z9Payload)
      abcPayload (.obj [("zonings", .arr [])]) z9Payload (.str "ABC123")
      (by decide) (by decide) rfl (by decide) rfl rfl (by decide) rfl (by decide) rfl
      rfl (by decide) rfl).2.2.2.2.1,
   (enrich_all_stages_succeed (allUp z9Payload) dallasReq (jsonResponse 200 abcPayload)
      (jsonResponse 200 (.obj [("zonings", .arr [])])) (jsonResponse 200 z9Payload)
      abcPayload (.obj [("zonings", .arr [])]) z9Payload (.str "ABC123")
      (by decide) (by decide) rfl (by decide) rfl rfl (by decide) rfl (by decide) rfl
      rfl (by decide) rfl).2.2.2.2.2.1,
   (enrich_all_stages_succeed (allUp z9Payload) dallasReq (jsonResponse 200 abcPayload)
      (jsonResponse 200 (.obj [("zonings", .arr [])])) (jsonResponse 200 z9Payload)
      abcPayload (.obj [("zonings", .arr [])]) z9Payload (.str "ABC123")
      (by decide) (by decide) rfl (by decide) rfl rfl (by decide) rfl (by decide) rfl
      rfl (by decide) rfl).2.2.2.2.2.2.1 (.str "Z9") rfl (by decide)⟩

/-- C7 as stated fails on a stage-C payload whose `assessments[0].id` is present
but not truthy: with all three stages succeeding and `assessments[0].id` the
empty string, `lightboxAssessmentId` is null, not that `id`. -/
theorem enrich_empty_assessment_id_counterexample :
    firstAssessmentId emptyAssessmentIdPayload = some (.str "") ∧
    (enrich (allUp emptyAssessmentIdPayload) dallasReq).response.field "assessment"
      = some emptyAssessmentIdPayload ∧
    (enrich (allUp emptyAssessmentIdPayload) dallasReq).response.field "errors"
      = some (.obj []) ∧
    (enrich (allUp emptyAssessmentIdPayload) dallasReq).response.field "lightboxParcelId"
      = some (.str "ABC123") ∧
    (enrich (allUp emptyAssessmentIdPayload) dallasReq).response.field "lightboxAssessmentId"
      = some .null :=
  ⟨rfl, rfl, rfl, rfl, rfl⟩

/-- C8, as amended: in the result of every validated /api/enrich request, for
each stage `s` of `parcel`, `zoning`, `assessment`: if the `errors` object has
neither the key `s` nor the key `general`, then stage `s` succeeded and its
payload is the field `s` of the result; and whenever `errors[s]` is recorded, the
field `s` is null. A stage-A transport exception is recorded under
`errors.general`, and `errors.parcel` stays absent. -/
theorem enrich_errors_invariant (fetch : Request → FetchOutcome) (req : Req)
    (hlat : truthy (lookupKey "lat" req.query) = true)
    (hlon : truthy (lookupKey "lon" req.query) = true) :
    ((enrich fetch req).response.error "parcel" = none →
      (enrich fetch req).response.error "general" = none →
      ∃ payload, parcelSucceeded fetch req payload ∧
        (enrich fetch req).response.field "parcel" = some payload) ∧
    ((enrich fetch req).response.error "zoning" = none →
      (enrich fetch req).response.error "general" = none →
      ∃ payload, zoningSucceeded fetch req payload ∧
        (enrich fetch req).response.field "zoning" = some payload) ∧
    ((enrich fetch req).response.error "assessment" = none →
      (enrich fetch req).response.error "general" = none →
      ∃ payload, assessmentSucceeded fetch req payload ∧
        (enrich fetch req).response.field "assessment" = some payload) ∧
    (((enrich fetch req).response.error "parcel").isSome = true →
      (enrich fetch req).response.field "parcel" = some .null) ∧
    (((enrich fetch req).response.error "zoning").isSome = true →
      (enrich fetch req).response.field "zoning" = some .null) ∧
    (((enrich fetch req).response.error "assessment").isSome = true →
      (enrich fetch req).response.field "assessment" = some .null) ∧
    (∀ message, fetch (enrichParcelReq req) = .rejected message →
      (enrich fetch req).response.error "general" = some (.str message) ∧
      (enrich fetch req).response.error "parcel" = none) := by
  rw [enrich_validated fetch req hlat hlon]
  unfold zoningSucceeded assessmentSucceeded parcelSucceeded enrichParcelReq
  cases hA : fetch (lightboxGet (enrichParcelUrl (lookupKey "lat" req.query)
      (lookupKey "lon" req.query))) with
  | rejected m =>
    simp [enrichTry, hA, EnrichResult.initial, EnrichResult.setError, error_eq, field_parcel,
      field_zoning, field_assessment, lookupKey, setKey]
  | responded r =>
    cases hok : r.ok
    · simp [enrichTry, hA, enrichStoreParcel, hok, extractLbId, optField, optIndex0, truthy,
        refLastSegment, EnrichResult.initial, EnrichResult.setError, error_eq, field_parcel,
        field_zoning, field_assessment, lookupKey, setKey]
    · cases hjson : r.json with
      | error m =>
        simp [enrichTry, hA, enrichStoreParcel, hok, hjson, EnrichResult.initial,
          EnrichResult.setError, error_eq, field_parcel, field_zoning, field_assessment,
          lookupKey, setKey]
      | ok payload =>
        cases hx : extractLbId payload with
        | error m =>
          rw [enrichTry_extract_throws fetch _ _ r payload m hA hok hjson hx]
          simp [EnrichResult.setError, error_eq, field_parcel, field_zoning, field_assessment,
            lookupKey, setKey]
        | ok lbId =>
          cases ht : truthy lbId
          · rw [enrichTry_no_id fetch _ _ r payload lbId hA hok hjson hx ht]
            simp [error_eq, field_parcel, field_zoning, field_assessment, lookupKey, hok, hjson]
          · rw [enrichTry_with_id fetch _ _ r payload lbId hA hok hjson hx ht]
            cases hz : fetch (lightboxGet (enrichZoningUrl lbId)) with
            | rejected mz =>
              cases hc : fetch (lightboxGet (enrichAssessmentUrl lbId)) with
              | rejected mc =>
                simp [enrichStoreZoning, enrichStoreAssessment, EnrichResult.setError, error_eq,
                  field_parcel, field_zoning, field_assessment, afterParcel, lookupKey, setKey,
                  hok, hjson, hx, ht, hz, hc]
              | responded rc =>
                cases hcok : rc.ok <;> cases hcj : rc.json <;>
                  simp [enrichStoreZoning, enrichStoreAssessment, EnrichResult.setError, error_eq,
                    field_parcel, field_zoning, field_assessment, afterParcel, lookupKey, setKey,
                    hok, hjson, hx, ht, hz, hc, hcok, hcj]
            | responded rb =>
              cases hc : fetch (lightboxGet (enrichAssessmentUrl lbId)) with
              | rejected mc =>
                cases hbok : rb.ok <;> cases hbj : rb.json <;>
                  simp [enrichStoreZoning, enrichStoreAssessment, EnrichResult.setError, error_eq,
                    field_parcel, field_zoning, field_assessment, afterParcel, lookupKey, setKey,
                    hok, hjson, hx, ht, hz, hc, hbok, hbj]
              | responded rc =>
                cases hbok : rb.ok <;> cases hbj : rb.json <;> cases hcok : rc.ok <;>
                  cases hcj : rc.json <;>
                  simp [enrichStoreZoning, enrichStoreAssessment, EnrichResult.setError, error_eq,
                    field_parcel, field_zoning, field_assessment, afterParcel, lookupKey, setKey,
                    hok, hjson, hx, ht, hz, hc, hbok, hbj, hcok, hcj]

/-- The amended claim C8 at the end-to-end scenario: no `errors.zoning` and no
`errors.general`, and stage B did succeed with the payload in `zoning`. -/
theorem enrich_errors_invariant_witness :
    truthy (lookupKey "lat" dallasReq.query) = true ∧
    truthy (lookupKey "lon" dallasReq.query) = true ∧
    (enrich (allUp z9Payload) dallasReq).response.error "zoning" = none ∧
    (enrich (allUp z9Payload) dallasReq).response.error "general" = none ∧
    ∃ payload, zoningSucceeded (allUp z9Payload) dallasReq payload ∧
      (enrich (allUp z9Payload) dallasReq).response.field "zoning" = some payload :=
  ⟨by decide, by decide, rfl, rfl,
   (enrich_errors_invariant (allUp z9Payload) dallasReq (by decide) (by decide)).2.1 rfl rfl⟩

/-- C8 as stated fails when the stage-A call throws: at `?lat=32.77&lon=-96.79`
with the call rejected with `ECONNREFUSED`, the `errors` object has no key
`parcel` although stage A did not succeed; the message is under
`errors.general`. -/
theorem enrich_errors_invariant_counterexample :
    (enrich (fun _ => .rejected "ECONNREFUSED") dallasReq).response.error "parcel" = none ∧
    (enrich (fun _ => .rejected "ECONNREFUSED") dallasReq).response.error "general"
      = some (.str "ECONNREFUSED") ∧
    ¬ ∃ payload, parcelSucceeded (fun _ => .rejected "ECONNREFUSED") dallasReq payload :=
  ⟨rfl, rfl, fun ⟨_, _, h, _⟩ => FetchOutcome.noConfusion h⟩

/-- C9, as amended: for every single-endpoint pass-through operation that
issues its upstream call `q`, an upstream response with a non-success status
whose body parses as JSON is relayed with exactly that status and that body; a
non-success response whose body does not parse, and a call that fails in the
network, are both answered with the generic 500 response carrying the error
message. -/
theorem passthrough_relays_status (e : Endpoint) (w : World) (req : Req) (q : Request)
    (hcall : (e.handler w req).calls = [q]) :
    (∀ r data, w.fetch q = .responded r → r.ok = false → r.json = .ok data →
      (e.handler w req).response = .json r.status data) ∧
    (∀ r message, w.fetch q = .responded r → r.ok = false → r.json = .error message →
      (e.handler w req).response = .json 500 (errorBody message)) ∧
    (∀ message, w.fetch q = .rejected message →
      (e.handler w req).response = .json 500 (errorBody message)) := by
  by_cases he : e = .claude
  · subst he
    have hq : q = claudeRequest w.cfg req := by
      rw [show (Endpoint.claude.handler w req) = claude w.cfg w.fetch req from rfl,
        claude_calls] at hcall
      simpa using hcall.symm
    subst hq
    simp only [Endpoint.handler, claude]
    refine ⟨?_, ?_, ?_⟩
    · intro r data h hok hj
      simp [h, hok, hj]
    · intro r message h hok hj
      simp [h, hok, hj]
    · intro message h
      simp [h]
  · rcases handler_no_call_or_relay e he w req with h | ⟨q', h⟩
    · rw [h] at hcall
      exact absurd hcall (by simp)
    · rw [h] at hcall ⊢
      rw [relay_calls] at hcall
      have hq : q' = q := by simpa using hcall
      subst hq
      refine ⟨(relay_response w.fetch q').1, ?_, (relay_response w.fetch q').2.2⟩
      intro r message hr _ hj
      exact (relay_response w.fetch q').2.1 r message hr hj

/-- The amended claim C9 at the parcel lookup by point `?lat=32.77&lon=-96.79`
with the upstream answering 404 and `{"message": "Not Found"}`. -/
theorem passthrough_relays_status_witness :
    (Endpoint.parcelsGeometry.handler notFoundWorld dallasReq).calls
      = [enrichParcelReq dallasReq] ∧
    (jsonResponse 404 (.obj [("message", .str "Not Found")])).ok = false ∧
    (Endpoint.parcelsGeometry.handler notFoundWorld dallasReq).response
      = .json 404 (.obj [("message", .str "Not Found")]) :=
  ⟨rfl, by decide,
   (passthrough_relays_status .parcelsGeometry notFoundWorld dallasReq (enrichParcelReq dallasReq)
      rfl).1
      (jsonResponse 404 (.obj [("message", .str "Not Found")]))
      (.obj [("message", .str "Not Found")]) rfl (by decide) rfl⟩

/-- C9 as stated fails for a non-success response whose body is not JSON: at the
parcel lookup by point with the upstream answering 502 and a body `json()`
rejects, the client receives 500 and the parse error, not the upstream
status. -/
theorem passthrough_garbled_body_counterexample :
    (garbledResponse 502 "Unexpected token < in JSON at position 0").ok = false ∧
    (parcelsGeometry
        (fun _ => .responded (garbledResponse 502 "Unexpected token < in JSON at position 0"))
        dallasReq).response
      = .json 500 (errorBody "Unexpected token < in JSON at position 0") ∧
    (parcelsGeometry
        (fun _ => .responded (garbledResponse 502 "Unexpected token < in JSON at position 0"))
        dallasReq).response.status? = some 500 :=
  ⟨by decide, rfl, rfl⟩

/-- C10 fails on `/api/claude`: with no `ANTHROPIC_KEY` configured, the request
`POST /api/claude` with body `{"model": "m", "messages": []}` is forwarded
upstream with the header `x-api-key` undefined, and the upstream 401 is relayed;
the handler has no 503 guard. -/
theorem claude_without_key_calls_upstream :
    envTruthy noKeys.ANTHROPIC_KEY = false ∧
    (claude noKeys (fun _ => .responded (jsonResponse 401 authenticationError)) chatReq).calls
      = [{ method := "POST", url := "https://api.anthropic.com/v1/messages",
           headers := [("Content-Type", some "application/json"), ("x-api-key", none),
                       ("anthropic-version", some "2023-06-01")],
           body := some (.obj [("model", .str "m"), ("messages", .arr []),
                               ("stream", .bool true)]) }] ∧
    (claude noKeys (fun _ => .responded (jsonResponse 401 authenticationError)) chatReq).response
      = .json 401 authenticationError :=
  ⟨rfl, rfl, rfl⟩

/-! ## The bounding-box claim -/

set_option maxRecDepth 4000

/-- The literal `0.05` is the double `7205759403792794 / 2 ^ 57`. -/
theorem bboxLimit_eq : bboxLimit = .fin false 7205759403792794 144115188075855872 := by
  decide

/-- The double `0.1` is `7205759403792794 / 2 ^ 56`. -/
theorem parseFloat_tenth : parseFloat "0.1" = .fin false 7205759403792794 72057594037927936 := by
  decide

/-- In doubles `0.15 - 0.1` is `0.04999999999999999`. -/
theorem sub_rounds_down :
    (parseFloat "0.15").sub (parseFloat "0.1") = parseFloat "0.04999999999999999" := by
  decide

/-- In doubles `0.3 - 0.1` is `0.19999999999999998`. -/
theorem sub_rounds_near_fifth :
    (parseFloat "0.3").sub (parseFloat "0.1") = parseFloat "0.19999999999999998" := by
  decide

/-- The integer `2 ^ 53 + 1` is read as `2 ^ 53`: a tie goes to the even neighbour. -/
theorem parseFloat_tie_to_even : parseFloat "9007199254740993" = .fin false 9007199254740992 1 := by
  decide

/-- `parseFloat` reads the longest numeric prefix and gives `NaN` without one. -/
theorem parseFloat_prefix :
    parseFloat "  12.5xyz" = parseFloat "12.5" ∧ parseFloat "1e" = parseFloat "1" ∧
    parseFloat "abc" = .nan ∧ parseFloat "" = .nan ∧ parseFloat "." = .nan ∧
    parseFloat "-Infinity" = .inf true := by
  decide

/-- A double that is not greater than `0.05` is at most `0.05`, or is `NaN`. -/
theorem le_or_nan_of_not_gt (x : Double) (h : x.gt bboxLimit = false) :
    x.le bboxLimit = true ∨ x = .nan := by
  rw [bboxLimit_eq] at h ⊢
  cases x with
  | nan => exact Or.inr rfl
  | inf negative => left; simpa [Double.le] using h
  | fin negative num den => left; simpa [Double.le] using h

/-- A supplied request whose test of line 562 is true is rejected before the call. -/
theorem bboxSearch_rejects_tooLarge (fetch : Request → FetchOutcome) (req : Req)
    (hall : req.bboxSupplied = true) :
    (bboxTooLarge (lookupKey "west" req.query) (lookupKey "south" req.query)
        (lookupKey "east" req.query) (lookupKey "north" req.query) = true →
      (bboxSearch fetch req).response = .json 400 (errorBody "Bbox too large — zoom in further") ∧
      (bboxSearch fetch req).calls = []) := by
  intro h
  simp only [Req.bboxSupplied, Bool.and_eq_true] at hall
  obtain ⟨⟨⟨⟨hw, hs⟩, he⟩, hn⟩, ht⟩ := hall
  simp [bboxSearch, parcelsBbox, hw, hs, he, hn, ht, h]

/-- C11, as amended: for every /api/parcels-bbox request with all of west,
south, east, north, token supplied, if the latitude span or the longitude span,
as the handler computes it (the double-precision difference of the
`parseFloat` values), is greater than 0.05, the request is rejected with status
400 and no upstream call is made; and in every request that reaches the
upstream each computed span is at most 0.05 or is `NaN`, which it is when a
bound does not start with a number. -/
theorem bbox_span_gate (fetch : Request → FetchOutcome) (req : Req)
    (hall : req.bboxSupplied = true) :
    ((req.latDiff.gt bboxLimit = true ∨ req.lonDiff.gt bboxLimit = true) →
      (bboxSearch fetch req).response = .json 400 (errorBody "Bbox too large — zoom in further") ∧
      (bboxSearch fetch req).calls = []) ∧
    ((bboxSearch fetch req).calls ≠ [] →
      (req.latDiff.le bboxLimit = true ∨ req.latDiff = .nan) ∧
      (req.lonDiff.le bboxLimit = true ∨ req.lonDiff = .nan)) := by
  constructor
  · intro h
    apply bboxSearch_rejects_tooLarge fetch req hall
    simp only [bboxTooLarge, Bool.or_eq_true]
    exact h
  · intro hcalls
    have hnot : bboxTooLarge (lookupKey "west" req.query) (lookupKey "south" req.query)
        (lookupKey "east" req.query) (lookupKey "north" req.query) = false := by
      cases h : bboxTooLarge (lookupKey "west" req.query) (lookupKey "south" req.query)
          (lookupKey "east" req.query) (lookupKey "north" req.query) with
      | false => rfl
      | true => exact absurd (bboxSearch_rejects_tooLarge fetch req hall h).2 hcalls
    simp only [bboxTooLarge, Bool.or_eq_false_iff] at hnot
    exact ⟨le_or_nan_of_not_gt _ hnot.1, le_or_nan_of_not_gt _ hnot.2⟩

/-- The amended claim C11 at the bounds west `-96.80`, south `32.75`, east
`-96.75`, north `32.90`: the latitude span `0.15` is greater than `0.05`. -/
theorem bbox_span_gate_witness :
    (bboxReq "-96.80" "32.75" "-96.75" "32.90").bboxSupplied = true ∧
    (bboxReq "-96.80" "32.75" "-96.75" "32.90").latDiff.gt bboxLimit = true ∧
    (bboxSearch (fun _ => .responded (jsonResponse 200 (.obj [])))
        (bboxReq "-96.80" "32.75" "-96.75" "32.90")).response
      = .json 400 (errorBody "Bbox too large — zoom in further") ∧
    (bboxSearch (fun _ => .responded (jsonResponse 200 (.obj [])))
        (bboxReq "-96.80" "32.75" "-96.75" "32.90")).calls = [] :=
  ⟨by decide, by decide,
   (bbox_span_gate (fun _ => .responded (jsonResponse 200 (.obj [])))
      (bboxReq "-96.80" "32.75" "-96.75" "32.90") (by decide)).1 (Or.inl (by decide))⟩

/-- C11 as stated fails in both directions. With north `abc` (west `-96.8`,
south `32.75`, east `-96.79`) all five parameters are supplied and the request
reaches the upstream, yet its latitude span is `NaN`, which is not at most
0.05. With north `32.8000000000000001` the exact span `north - south` exceeds
0.05, yet both `parseFloat` and the subtraction round, the computed span is
below 0.05, and the request reaches the upstream. -/
theorem bbox_nan_and_rounding_counterexample :
    (bboxReq "-96.8" "32.75" "-96.79" "abc").bboxSupplied = true ∧
    (bboxSearch (fun _ => .responded (jsonResponse 200 (.obj [])))
        (bboxReq "-96.8" "32.75" "-96.79" "abc")).calls
      = [bboxCall "-96.8" "32.75" "-96.79" "abc"] ∧
    (bboxReq "-96.8" "32.75" "-96.79" "abc").latDiff = .nan ∧
    (bboxReq "-96.8" "32.75" "-96.79" "abc").latDiff.le bboxLimit = false ∧
    exactSpanExceeds "32.8000000000000001" "32.75" = true ∧
    (bboxReq "-96.8" "32.75" "-96.79" "32.8000000000000001").latDiff
      = parseFloat "0.04999999999999716" ∧
    (bboxSearch (fun _ => .responded (jsonResponse 200 (.obj [])))
        (bboxReq "-96.8" "32.75" "-96.79" "32.8000000000000001")).calls
      = [bboxCall "-96.8" "32.75" "-96.79" "32.8000000000000001"] :=
  ⟨by decide, rfl, by decide, by decide, by decide, by decide, rfl⟩

/-! ## Lemmas on the skip-trace handler -/

/-- The first piece of a split is what stands before the first separator. -/
theorem splitChars_head (sep : Char) (cs : List Char) :
    (splitChars sep cs).head? = some (cs.takeWhile (fun c => c != sep)) := by
  induction cs with
  | nil => rfl
  | cons c cs ih =>
    by_cases h : c = sep
    · simp [splitChars, h]
    · cases hs : splitChars sep cs with
      | nil => simp [hs] at ih
      | cons seg rest =>
        simp [hs] at ih
        simp [splitChars, h, hs, ih]

/-- The expression `z.split('-')[0]` is the part of `z` before its first hyphen. -/
theorem jsSplit_head (z : String) :
    (jsSplit z '-').head? = some (beforeFirstHyphen z) := by
  have h := splitChars_head '-' z.data
  cases hs : splitChars '-' z.data with
  | nil => simp [hs] at h
  | cons seg rest =>
    simp [hs] at h
    simp [jsSplit, hs, beforeFirstHyphen, h]

/-- A request that reaches the upstream: the credential is set, `address` is
truthy, the payload was built without an exception, and the one call carries
it. -/
theorem skiptrace_reaches_upstream (cfg : Config) (fetch : Request → FetchOutcome) (req : Req)
    (q : Request) (hcall : (skiptrace cfg fetch req).calls = [q]) :
    envTruthy cfg.REAPI_KEY = true ∧
    truthy (optField (some req.body) "address") = true ∧
    ∃ payload,
      skiptracePayload (optField (some req.body) "address") (optField (some req.body) "city")
        (optField (some req.body) "state") (optField (some req.body) "zip") = .ok payload ∧
      q.body = some payload := by
  unfold skiptrace at hcall
  cases hkey : envTruthy cfg.REAPI_KEY
  · simp [hkey] at hcall
  · simp only [hkey, Bool.not_true, Bool.false_eq_true, if_false] at hcall
    refine ⟨rfl, ?_⟩
    split at hcall
    · simp at hcall
    · cases haddr : truthy (optField (some req.body) "address")
      · simp [haddr] at hcall
      · simp only [haddr, Bool.not_true, Bool.false_eq_true, if_false] at hcall
        refine ⟨rfl, ?_⟩
        split at hcall
        · cases hp : skiptracePayload (optField (some req.body) "address")
            (optField (some req.body) "city") (optField (some req.body) "state")
            (optField (some req.body) "zip") with
          | error m => simp [hp] at hcall
          | ok payload =>
            simp only [hp, relay_calls] at hcall
            refine ⟨payload, rfl, ?_⟩
            have hq := (List.cons.inj hcall).1
            rw [← hq]
        · simp at hcall

/-- The fields of a payload that was built without an exception: `address` as
given; `city` and `state` as given when truthy, missing otherwise; `zip` the part
before the first hyphen when the given `zip` is truthy (then it is a string),
missing otherwise. -/
theorem skiptracePayload_fields (address city state zip : Option JsValue) (payload : JsValue)
    (haddr : truthy address = true)
    (hp : skiptracePayload address city state zip = .ok payload) :
    optField (some payload) "address" = address ∧
    optField (some payload) "city" = (if truthy city then city else none) ∧
    optField (some payload) "state" = (if truthy state then state else none) ∧
    optField (some payload) "zip" =
      (if truthy zip then
        (match zip with
          | some (.str z) => some (.str (beforeFirstHyphen z))
          | _ => none)
       else none) := by
  cases address with
  | none => simp [truthy] at haddr
  | some a =>
    unfold skiptracePayload at hp
    cases hz : truthy zip
    · simp only [hz, Bool.false_eq_true, if_false] at hp
      have hp := (Except.ok.inj hp).symm
      subst hp
      rcases city with _ | c <;> rcases state with _ | st <;>
        simp only [truthy, optionalKey, optField, List.append_nil, List.singleton_append,
          List.cons_append, List.nil_append] <;>
        split_ifs <;> simp_all [lookupKey]
    · simp only [hz, if_true] at hp
      cases zip with
      | none => simp [truthy] at hz
      | some v =>
        cases v with
        | str z =>
          simp only [jsSplit_head, Option.map_some'] at hp
          have hp := (Except.ok.inj hp).symm
          subst hp
          rcases city with _ | c <;> rcases state with _ | st <;>
            simp only [truthy, optionalKey, optField, List.append_nil, List.singleton_append,
              List.cons_append, List.nil_append] <;>
            split_ifs <;> simp_all [lookupKey]
        | null => simp at hp
        | bool b => simp at hp
        | num n => simp at hp
        | arr items => simp at hp
        | obj fields => simp at hp

/-- A digit is not a hyphen. -/
theorem digit_ne_hyphen (c : Char) (h : c.isDigit = true) : (c != '-') = true := by
  by_cases hc : c = '-'
  · subst hc
    exact absurd h (by decide)
  · simpa using hc

/-- A string without a hyphen is its own part before the first hyphen. -/
theorem beforeFirstHyphen_of_no_hyphen (z : String) (h : '-' ∉ z.data) :
    beforeFirstHyphen z = z := by
  have : z.data.takeWhile (fun c => c != '-') = z.data := by
    rw [List.takeWhile_eq_self_iff]
    intro c hc
    have : c ≠ '-' := fun hcc => h (hcc ▸ hc)
    simpa using this
  simp [beforeFirstHyphen, this]

/-- The part of a ZIP+4 value before its first hyphen is its first five digits. -/
theorem beforeFirstHyphen_of_zipPlus4 (z : String) (h : isZipPlus4 z = true) :
    beforeFirstHyphen z = firstFive z := by
  unfold isZipPlus4 at h
  unfold beforeFirstHyphen firstFive
  split at h
  · rename_i d₁ d₂ d₃ d₄ d₅ hy d₆ d₇ d₈ d₉ hz
    simp only [Bool.and_eq_true, beq_iff_eq] at h
    obtain ⟨⟨⟨⟨⟨⟨⟨⟨⟨h₁, h₂⟩, h₃⟩, h₄⟩, h₅⟩, hh⟩, _⟩, _⟩, _⟩, _⟩ := h
    subst hh
    rw [hz]
    simp [List.takeWhile, digit_ne_hyphen _ h₁, digit_ne_hyphen _ h₂, digit_ne_hyphen _ h₃,
      digit_ne_hyphen _ h₄, digit_ne_hyphen _ h₅]
  · exact absurd h (by simp)

/-- What holds of C12: in every request that reaches the upstream, the payload
has a `city`, `state` or `zip` field only if the body has a truthy one, and
`address`, `city` and `state` are forwarded as given, so none of them is the
empty string. -/
theorem skiptrace_optional_fields (cfg : Config) (fetch : Request → FetchOutcome) (req : Req)
    (q : Request) (hcall : (skiptrace cfg fetch req).calls = [q]) :
    ((q.payloadField "city").isSome = true → truthy (optField (some req.body) "city") = true) ∧
    ((q.payloadField "state").isSome = true → truthy (optField (some req.body) "state") = true) ∧
    ((q.payloadField "zip").isSome = true → truthy (optField (some req.body) "zip") = true) ∧
    q.payloadField "address" ≠ some (.str "") ∧
    q.payloadField "city" ≠ some (.str "") ∧
    q.payloadField "state" ≠ some (.str "") := by
  obtain ⟨_, haddr, payload, hp, hq⟩ := skiptrace_reaches_upstream cfg fetch req q hcall
  obtain ⟨h₁, h₂, h₃, h₄⟩ := skiptracePayload_fields _ _ _ _ payload haddr hp
  simp only [Request.payloadField, hq, h₁, h₂, h₃, h₄]
  refine ⟨?_, ?_, ?_, ?_, ?_, ?_⟩
  · split_ifs with h <;> simp [h]
  · split_ifs with h <;> simp [h]
  · split_ifs with h <;> simp [h]
  · intro h
    rw [h] at haddr
    exact absurd haddr (by decide)
  · split_ifs with h
    · intro h'
      rw [h'] at h
      exact absurd h (by decide)
    · simp
  · split_ifs with h
    · intro h'
      rw [h'] at h
      exact absurd h (by decide)
    · simp

/-! ## The skip-trace claims -/

/-- C12 fails on a zip that starts with a hyphen: the request
`POST /api/skiptrace` with body `{"address": "1 Main St", "zip": "-3104"}`
reaches the upstream with the payload `{"address": "1 Main St", "zip": ""}`,
whose `zip` field is the empty string. -/
theorem skiptrace_hyphen_zip_forwards_empty :
    (skiptrace reapiOnly (fun _ => .responded (jsonResponse 200 (.obj []))) hyphenZipReq).calls
      = [skiptraceCall (.obj [("address", .str "1 Main St"), ("zip", .str "")])] ∧
    (skiptraceCall (.obj [("address", .str "1 Main St"), ("zip", .str "")])).payloadField "zip"
      = some (.str "") :=
  ⟨rfl, rfl⟩

/-- A truthy `zip` that is not a string never reaches the upstream: no call is
made on any path, and where the payload is built `.split` throws and the `catch`
answers 500. -/
theorem skiptrace_non_string_zip (cfg : Config) (fetch : Request → FetchOutcome) (req : Req)
    (v : JsValue) (hzip : optField (some req.body) "zip" = some v)
    (ht : truthy (some v) = true) (hv : ∀ s, v ≠ .str s) :
    (skiptrace cfg fetch req).calls = [] ∧
    (envTruthy cfg.REAPI_KEY = true →
      truthy (optField (some req.body) "address") = true →
      (∃ s, jsOr (optField (some req.body) "ownerName") (some (.str "")) = some (.str s)) →
      (skiptrace cfg fetch req).response = .json 500 (errorBody zipTypeError)) := by
  have hp : skiptracePayload (optField (some req.body) "address")
      (optField (some req.body) "city") (optField (some req.body) "state")
      (optField (some req.body) "zip") = .error zipTypeError := by
    simp only [skiptracePayload, hzip, ht, if_true]
    cases v with
    | str s => exact absurd rfl (hv s)
    | null => rfl
    | bool b => rfl
    | num n => rfl
    | arr items => rfl
    | obj fields => rfl
  constructor
  · unfold skiptrace
    cases hkey : envTruthy cfg.REAPI_KEY
    · simp
    · simp only [Bool.not_true, Bool.false_eq_true, if_false]
      split
      · rfl
      · cases haddr : truthy (optField (some req.body) "address")
        · simp
        · simp only [Bool.not_true, Bool.false_eq_true, if_false]
          split
          · simp only [hp]
          · rfl
  · intro hkey haddr hname
    obtain ⟨s, hs⟩ := hname
    unfold skiptrace
    simp only [hkey, Bool.not_true, Bool.false_eq_true, if_false]
    split
    · rename_i hnull
      rw [hnull] at hzip
      simp [optField] at hzip
    · simp only [haddr, Bool.not_true, Bool.false_eq_true, if_false, hs, hp]

/-- C13, as amended: in a /api/skiptrace request whose `zip` is a non-empty
string, every call that reaches the upstream forwards as `zip` the part of the
supplied zip before its first hyphen: the zip itself when it has no hyphen, and
the first five digits when it is a ZIP+4 value. Such a request does reach the
upstream when the credential is set, `address` is truthy, `ownerName || ''` is a
string, and `address`, `city` and `state` have a string form for the log line
476. A request whose `zip` is truthy and not a string never reaches the
upstream: `.split` throws on line 474 and the handler answers 500. -/
theorem skiptrace_zip_before_hyphen (cfg : Config) (fetch : Request → FetchOutcome) (req : Req) :
    (∀ z, optField (some req.body) "zip" = some (.str z) → z ≠ "" →
      (∀ q, (skiptrace cfg fetch req).calls = [q] →
        q.payloadField "zip" = some (.str (beforeFirstHyphen z)) ∧
        ('-' ∉ z.data → q.payloadField "zip" = some (.str z)) ∧
        (isZipPlus4 z = true → q.payloadField "zip" = some (.str (firstFive z)))) ∧
      (envTruthy cfg.REAPI_KEY = true →
        truthy (optField (some req.body) "address") = true →
        (∃ s, jsOr (optField (some req.body) "ownerName") (some (.str "")) = some (.str s)) →
        interpolable (optField (some req.body) "address") = true →
        interpolable (optField (some req.body) "city") = true →
        interpolable (optField (some req.body) "state") = true →
        ∃ q, (skiptrace cfg fetch req).calls = [q])) ∧
    (∀ v, optField (some req.body) "zip" = some v → truthy (some v) = true →
      (∀ s, v ≠ .str s) →
      (skiptrace cfg fetch req).calls = [] ∧
      (envTruthy cfg.REAPI_KEY = true →
        truthy (optField (some req.body) "address") = true →
        (∃ s, jsOr (optField (some req.body) "ownerName") (some (.str "")) = some (.str s)) →
        (skiptrace cfg fetch req).response = .json 500 (errorBody zipTypeError))) := by
  refine ⟨?_, fun v hzip ht hv => skiptrace_non_string_zip cfg fetch req v hzip ht hv⟩
  intro z hzip hne
  have hz : truthy (some (.str z)) = true := by
    cases z with
    | mk data =>
      cases data with
      | nil => exact absurd rfl hne
      | cons c cs => rfl
  constructor
  · intro q hcall
    obtain ⟨_, haddr, payload, hp, hq⟩ := skiptrace_reaches_upstream cfg fetch req q hcall
    obtain ⟨_, _, _, h₄⟩ := skiptracePayload_fields _ _ _ _ payload haddr hp
    rw [hzip] at h₄
    simp only [hz, if_true] at h₄
    have hfield : q.payloadField "zip" = some (.str (beforeFirstHyphen z)) := by
      simp only [Request.payloadField, hq, h₄]
    refine ⟨hfield, ?_, ?_⟩
    · intro hno
      rw [hfield, beforeFirstHyphen_of_no_hyphen z hno]
    · intro hplus
      rw [hfield, beforeFirstHyphen_of_zipPlus4 z hplus]
  · intro hkey haddr hname _ _ _
    obtain ⟨s, hs⟩ := hname
    have hp : ∃ payload,
        skiptracePayload (optField (some req.body) "address") (optField (some req.body) "city")
          (optField (some req.body) "state") (optField (some req.body) "zip") = .ok payload := by
      simp only [skiptracePayload, hzip, hz, if_true]
      exact ⟨_, rfl⟩
    obtain ⟨payload, hp⟩ := hp
    unfold skiptrace
    simp only [hkey, Bool.not_true, Bool.false_eq_true, if_false]
    split
    · rename_i hnull
      rw [hnull] at hzip
      simp [optField] at hzip
    · simp only [haddr, Bool.not_true, Bool.false_eq_true, if_false, hs, hp, relay_calls]
      exact ⟨_, rfl⟩

/-- The amended claim C13 at the body
`{"address": "1 Main St", "city": "Irving", "state": "TX", "zip": "75039-3104"}`:
the ZIP+4 value `75039-3104` is forwarded as `75039`. -/
theorem skiptrace_zip_before_hyphen_witness :
    isZipPlus4 "75039-3104" = true ∧
    (skiptrace reapiOnly (fun _ => .responded (jsonResponse 200 (.obj []))) irvingReq).calls
      = [skiptraceCall (.obj [("address", .str "1 Main St"), ("city", .str "Irving"),
                              ("state", .str "TX"), ("zip", .str "75039")])] ∧
    (skiptraceCall (.obj [("address", .str "1 Main St"), ("city", .str "Irving"),
                          ("state", .str "TX"), ("zip", .str "75039")])).payloadField "zip"
      = some (.str "75039") :=
  ⟨by decide, rfl,
   (((skiptrace_zip_before_hyphen reapiOnly (fun _ => .responded (jsonResponse 200 (.obj [])))
      irvingReq).1 "75039-3104" rfl (by decide)).1
      (skiptraceCall (.obj [("address", .str "1 Main St"), ("city", .str "Irving"),
                            ("state", .str "TX"), ("zip", .str "75039")])) rfl).2.2 (by decide)⟩

/-- C13 as stated fails on a zip that is not a string: the request
`POST /api/skiptrace` with body `{"address": "1 Main St", "zip": 75039}` has a
zip without a hyphen, yet nothing is forwarded: `.split` throws on line 474, the
handler answers 500 and makes no upstream call. -/
theorem skiptrace_numeric_zip_counterexample :
    envTruthy reapiOnly.REAPI_KEY = true ∧
    optField (some numericZipReq.body) "zip" = some (.num { isZero := false, text := "75039" }) ∧
    (skiptrace reapiOnly (fun _ => .responded (jsonResponse 200 (.obj []))) numericZipReq).response
      = .json 500 (errorBody "zip.split is not a function") ∧
    (skiptrace reapiOnly (fun _ => .responded (jsonResponse 200 (.obj []))) numericZipReq).calls
      = [] :=
  ⟨rfl, rfl, rfl, rfl⟩

end ParcelIQ
